import Mathlib

/-!
Simit IR: types, expression and statement constructors.

A shallow embedding of `src/types.h`, `src/ir.h` and `src/tensor_index.cpp`.

Conventions of the embedding.

* A C++ function that can hit a failed `iassert`/`assert`, or that would
  dereference a null handle or read a field that was never initialised,
  returns `Result.fail`; otherwise `Result.ok`.
* A handle (`Type`, `Var`, `Expr`, `Stmt`, `Func`) is either the null handle
  (`undefined`) or one of the node variants it can point to.  Reference
  counts and sharing are not represented: nodes are immutable once built.
* `size_t` is `Nat` reduced modulo `2 ^ 64`, `int` is `Int` reduced to the
  32-bit two's complement range.
* `malloc` returns null for a request above `PTRDIFF_MAX`, and writing through
  that null pointer is a failure like any other null dereference.
-/

namespace Simit

/-! ## Failures -/

/-- Ways in which a call does not return normally. -/
inductive Failure where
  /-- A failed `iassert(cond) << msg`. -/
  | iassert (cond msg : String)
  /-- A failed `assert(cond)`. -/
  | assert (cond : String)
  /-- A null handle was dereferenced, or an uninitialised field was read. -/
  | undefinedBehaviour
deriving DecidableEq, Repr

/-- Outcome of a call: a value, or a failure. -/
inductive Result (α : Type) where
  | ok (value : α)
  | fail (failure : Failure)
deriving DecidableEq, Repr

namespace Result

/-- Sequencing: the first failure ends the computation. -/
def bind {α β : Type} (x : Result α) (f : α → Result β) : Result β :=
  match x with
  | ok a => f a
  | fail e => fail e

instance : Monad Result where
  pure := Result.ok
  bind := Result.bind

/-- Whether the call returned normally. -/
def succeeds {α : Type} (x : Result α) : Bool :=
  match x with
  | ok _ => true
  | fail _ => false

end Result

/-- The check `iassert(c) << msg`, with `cond` the text of the condition. -/
def iassert (c : Bool) (cond msg : String) : Result Unit :=
  if c then Result.ok () else Result.fail (Failure.iassert cond msg)

/-- The check `assert(c)`, with `cond` the text of the condition. -/
def cassert (c : Bool) (cond : String) : Result Unit :=
  if c then Result.ok () else Result.fail (Failure.assert cond)

/-- Runs `f` on every element in order, stopping at the first failure
(a range-`for` whose body only asserts). -/
def forEach {α : Type} (f : α → Result Unit) : List α → Result Unit
  | [] => Result.ok ()
  | x :: xs => (f x).bind (fun _ => forEach f xs)

/-! ## Machine integers -/

/-- The C `int` of the sources: an integer, kept in the 32-bit two's complement
range by `wrapInt`. -/
abbrev CInt := Int

/-- Reduction of an integer to the 32-bit two's complement range. -/
def wrapInt (x : Int) : Int := (x + 2 ^ 31) % 2 ^ 32 - 2 ^ 31

/-- Reduction of a natural number to the range of `size_t`. -/
def wrapSize (n : Nat) : Nat := n % 2 ^ 64

/-- Conversion of an `int` to `size_t` (modulo `2 ^ 64`). -/
def sizeOfInt (i : Int) : Nat := (i % 2 ^ 64).toNat

/-- One byte of memory. -/
abbrev Byte := Fin 256

/-! ## Domain primitives (`domain.h`, `indexvar.h`) -/

/-- Modelled from the spec: `domain.h` is not among the sources.  The glossary
describes an index set as a named collection whose cardinality serves as a
tensor dimension. -/
structure IndexSet where
  name : String
  cardinality : Nat
deriving DecidableEq, Repr

/-- Modelled from the spec: `domain.h` is not among the sources.  An index
domain is a named collection whose cardinality serves as a tensor dimension;
two domains are equal when they are the same collection. -/
structure IndexDomain where
  name : String
  cardinality : Nat
deriving DecidableEq, Repr

/-- Modelled from the spec: `ReductionOperator` is declared outside the
sources; only its default-constructed value and its identity are used. -/
structure ReductionOperator where
  tag : Nat
deriving DecidableEq, Repr

/-- Modelled from the spec: `indexvar.h` is not among the sources.  An index
variable is a bound name ranging over an index domain, either free or a
reduction variable. -/
structure IndexVar where
  name : String
  domain : IndexDomain
  reduction : Option ReductionOperator
deriving DecidableEq, Repr

/-- The accessor `IndexVar::getDomain`. -/
def IndexVar.getDomain (v : IndexVar) : IndexDomain := v.domain

/-- The test `IndexVar::isFreeVar`: no reduction operator attached. -/
def IndexVar.isFreeVar (v : IndexVar) : Bool := v.reduction.isNone

/-! ## Types (`types.h`) -/

/-- The enum `ScalarType::Kind`. -/
inductive ScalarType.Kind where
  | Int
  | Float
deriving DecidableEq, Repr

/-- The struct `ScalarType`. -/
structure ScalarType where
  kind : ScalarType.Kind
  bits : Int
deriving DecidableEq, Repr

/-- The method `ScalarType::bytes`: `(bits + 7) / 8` in `int` arithmetic
(the quotient truncates toward zero). -/
def ScalarType.bytes (s : ScalarType) : Int := Int.tdiv (wrapInt (s.bits + 7)) 8

/-- The method `ScalarType::isInt`. -/
def ScalarType.isInt (s : ScalarType) : Bool := s.kind == ScalarType.Kind.Int

/-- The method `ScalarType::isFloat`. -/
def ScalarType.isFloat (s : ScalarType) : Bool := s.kind == ScalarType.Kind.Float

/-- The struct `TensorType`. -/
structure TensorType where
  componentType : ScalarType
  dimensions : List IndexDomain
  isColumnVector : Bool
deriving DecidableEq, Repr

/-- The method `TensorType::order`. -/
def TensorType.order (t : TensorType) : Nat := t.dimensions.length

/-- Modelled from the spec: `TensorType::size` is declared in `types.h` and
defined outside the sources.  It is the product of the cardinalities of all
dimensions, as a `size_t`. -/
def TensorType.size (t : TensorType) : Nat :=
  wrapSize (t.dimensions.map IndexDomain.cardinality).prod

/-- The enum `Type::Kind`. -/
inductive Kind where
  | Tensor
  | Element
  | Set
  | Tuple
deriving DecidableEq, Repr

mutual
/-- The handle class `Type`: the default-constructed handle (`ptr` null,
`_kind` never written) or a handle built from one of the four descriptors. -/
inductive Type_ where
  | undefined
  | ofTensor (tensor : TensorType)
  | ofElement (element : ElementType)
  | ofSet (set : SetType)
  | ofTuple (tuple : TupleType)
deriving DecidableEq
/-- The struct `ElementType`. -/
inductive ElementType where
  | mk (name : String) (fields : FieldMap)
deriving DecidableEq
/-- The struct `SetType`. -/
inductive SetType where
  | mk (elementType : Type_)
deriving DecidableEq
/-- The struct `TupleType`. -/
inductive TupleType where
  | mk (elementType : Type_) (size : Nat)
deriving DecidableEq
/-- A `std::map<std::string,Type>`: its entries in key order. -/
inductive FieldMap where
  | nil
  | cons (name : String) (type : Type_) (rest : FieldMap)
deriving DecidableEq
end

/-- The field `ElementType::name`. -/
def ElementType.name : ElementType → String
  | ElementType.mk n _ => n

/-- The field `ElementType::fields`. -/
def ElementType.fields : ElementType → FieldMap
  | ElementType.mk _ f => f

/-- The field `SetType::elementType`. -/
def SetType.elementType : SetType → Type_
  | SetType.mk e => e

/-- The field `TupleType::elementType`. -/
def TupleType.elementType : TupleType → Type_
  | TupleType.mk e _ => e

/-- The field `TupleType::size`. -/
def TupleType.size : TupleType → Nat
  | TupleType.mk _ n => n

namespace Type_

/-- The method `Type::defined`: `ptr != nullptr`. -/
def defined : Type_ → Bool
  | undefined => false
  | _ => true

/-- The method `Type::kind`: returns `_kind`, which the default constructor
leaves uninitialised. -/
def kind : Type_ → Result Kind
  | undefined => Result.fail Failure.undefinedBehaviour
  | ofTensor _ => Result.ok Kind.Tensor
  | ofElement _ => Result.ok Kind.Element
  | ofSet _ => Result.ok Kind.Set
  | ofTuple _ => Result.ok Kind.Tuple

/-- The method `Type::isTensor`. -/
def isTensor (t : Type_) : Result Bool := t.kind.bind (fun k => Result.ok (k == Kind.Tensor))

/-- The method `Type::isElement`. -/
def isElement (t : Type_) : Result Bool := t.kind.bind (fun k => Result.ok (k == Kind.Element))

/-- The method `Type::isSet`. -/
def isSet (t : Type_) : Result Bool := t.kind.bind (fun k => Result.ok (k == Kind.Set))

/-- The method `Type::isTuple`. -/
def isTuple (t : Type_) : Result Bool := t.kind.bind (fun k => Result.ok (k == Kind.Tuple))

/-- The method `Type::toTensor`: asserts the kind, then returns the union
member. -/
def toTensor (t : Type_) : Result TensorType := do
  let b ← t.isTensor
  cassert b "isTensor()"
  match t with
  | ofTensor d => Result.ok d
  | _ => Result.fail Failure.undefinedBehaviour

/-- The method `Type::toElement`. -/
def toElement (t : Type_) : Result ElementType := do
  let b ← t.isElement
  cassert b "isElement()"
  match t with
  | ofElement d => Result.ok d
  | _ => Result.fail Failure.undefinedBehaviour

/-- The method `Type::toSet`. -/
def toSet (t : Type_) : Result SetType := do
  let b ← t.isSet
  cassert b "isSet()"
  match t with
  | ofSet d => Result.ok d
  | _ => Result.fail Failure.undefinedBehaviour

/-- The method `Type::toTuple`. -/
def toTuple (t : Type_) : Result TupleType := do
  let b ← t.isTuple
  cassert b "isTuple()"
  match t with
  | ofTuple d => Result.ok d
  | _ => Result.fail Failure.undefinedBehaviour

end Type_

/-- The three-argument `TensorType::make`. -/
def TensorType.make (componentType : ScalarType) (dimensions : List IndexDomain)
    (isColumnVector : Bool) : Type_ :=
  Type_.ofTensor { componentType := componentType, dimensions := dimensions,
                   isColumnVector := isColumnVector }

/-- The one-argument `TensorType::make`: no dimensions, and the default
`isColumnVector = false`. -/
def TensorType.makeScalar (componentType : ScalarType) : Type_ :=
  TensorType.make componentType [] false

/-- The function `Int(bits)`. -/
def Type_.Int (bits : CInt) : Type_ :=
  TensorType.makeScalar { kind := ScalarType.Kind.Int, bits := bits }

/-- The function `Float(bits)`. -/
def Type_.Float (bits : CInt) : Type_ :=
  TensorType.makeScalar { kind := ScalarType.Kind.Float, bits := bits }

/-- The function `ElementType::make`. -/
def ElementType.make (name : String) (fields : FieldMap) : Type_ :=
  Type_.ofElement (ElementType.mk name fields)

/-- The function `SetType::make`. -/
def SetType.make (elementType : Type_) : Result Type_ := do
  let b ← elementType.isElement
  cassert b "elementType.isElement()"
  Result.ok (Type_.ofSet (SetType.mk elementType))

/-- The function `TupleType::make`. -/
def TupleType.make (elementType : Type_) (size : Nat) : Result Type_ := do
  let b ← elementType.isElement
  cassert b "elementType.isElement()"
  Result.ok (Type_.ofTuple (TupleType.mk elementType size))

/-- The function `isScalarTensor` of `types.h`. -/
def isScalarTensor (type : Type_) : Result Bool := do
  let k ← type.kind
  if k == Kind.Tensor then
    let t ← type.toTensor
    Result.ok (t.order == 0)
  else
    Result.ok false

/-- Modelled from the spec: `isScalar` is called throughout `ir.h` and defined
outside the sources.  It is true for tensors of order 0, which is what
`isScalarTensor` of `types.h` computes. -/
def isScalar (type : Type_) : Result Bool := isScalarTensor type

/-- Modelled from the spec: `operator==` on `ScalarType` is declared in
`types.h` and defined outside the sources.  Scalars are equal iff kind and
bits are equal. -/
def scalarTypeEq (l r : ScalarType) : Bool := l.kind == r.kind && l.bits == r.bits

/-- Modelled from the spec: `operator==` on `TensorType` is declared in
`types.h` and defined outside the sources.  Tensors are equal iff components
are equal, dimension sequences are equal element-wise, and the column-vector
flags are equal. -/
def tensorTypeEq (l r : TensorType) : Bool :=
  scalarTypeEq l.componentType r.componentType && l.dimensions == r.dimensions
    && l.isColumnVector == r.isColumnVector

mutual
/-- Modelled from the spec: `operator==` on `Type` is declared in `types.h`
and defined outside the sources.  Structural equality, variant by variant;
two empty handles are equal, and handles of different variants are not. -/
def typeEq (l r : Type_) : Bool :=
  match l, r with
  | Type_.undefined, Type_.undefined => true
  | Type_.ofTensor l, Type_.ofTensor r => tensorTypeEq l r
  | Type_.ofElement l, Type_.ofElement r => elementTypeEq l r
  | Type_.ofSet l, Type_.ofSet r => setTypeEq l r
  | Type_.ofTuple l, Type_.ofTuple r => tupleTypeEq l r
  | _, _ => false
termination_by structural l
/-- Modelled from the spec: elements are equal iff names and field mappings
are equal. -/
def elementTypeEq (l r : ElementType) : Bool :=
  match l, r with
  | ElementType.mk n f, ElementType.mk n' f' => n == n' && fieldMapEq f f'
termination_by structural l
/-- Modelled from the spec: sets are equal iff element types are equal. -/
def setTypeEq (l r : SetType) : Bool :=
  match l, r with
  | SetType.mk e, SetType.mk e' => typeEq e e'
termination_by structural l
/-- Modelled from the spec: tuples are equal iff element types and sizes are
equal. -/
def tupleTypeEq (l r : TupleType) : Bool :=
  match l, r with
  | TupleType.mk e n, TupleType.mk e' n' => typeEq e e' && n == n'
termination_by structural l
/-- Modelled from the spec: field mappings are compared name by name. -/
def fieldMapEq (l r : FieldMap) : Bool :=
  match l, r with
  | FieldMap.nil, FieldMap.nil => true
  | FieldMap.cons n t r, FieldMap.cons n' t' r' => n == n' && typeEq t t' && fieldMapEq r r'
  | _, _ => false
termination_by structural l
end

/-- Modelled from the spec: `operator!=` on `Type` is the negation of
`operator==`. -/
def typeNe (l r : Type_) : Bool := !typeEq l r

/-! ## Variables, expressions, statements and functions (`ir.h`) -/

/-- The handle class `Var`: the null handle, or a variable with its name and
type. -/
inductive Var where
  | undefined
  | mk (name : String) (type : Type_)
deriving DecidableEq

/-- The method `Var::defined`. -/
def Var.defined : Var → Bool
  | Var.undefined => false
  | Var.mk _ _ => true

/-- The accessor `Var::getName`, which dereferences the handle. -/
def Var.getName : Var → Result String
  | Var.undefined => Result.fail Failure.undefinedBehaviour
  | Var.mk name _ => Result.ok name

/-- The accessor `Var::getType`, which dereferences the handle. -/
def Var.getType : Var → Result Type_
  | Var.undefined => Result.fail Failure.undefinedBehaviour
  | Var.mk _ type => Result.ok type

/-- The enum `Func::Kind`. -/
inductive Func.Kind where
  | Internal
  | Intrinsic
deriving DecidableEq, Repr

/-- The enum `ForDomain::Kind`. -/
inductive ForDomain.Kind where
  | IndexSet
  | Endpoints
  | Edges
deriving DecidableEq, Repr

mutual
/-- The handle class `Expr`: the null handle, or a handle to a node of one of
the expression structs.  Each node carries the `type` of `ExprNodeBase`
followed by the fields of its struct. -/
inductive Expr where
  | undefined
  | Literal (type : Type_) (data : List Byte) (size : Nat)
  | VarExpr (type : Type_) (var : Var)
  | FieldRead (type : Type_) (elementOrSet : Expr) (fieldName : String)
  | TensorRead (type : Type_) (tensor : Expr) (indices : List Expr)
  | TupleRead (type : Type_) (tuple index : Expr)
  | IndexRead (type : Type_) (edgeSet : Expr) (indexName : String)
  | Length (type : Type_) (indexSet : IndexSet)
  | IndexedTensor (type : Type_) (tensor : Expr) (indexVars : List IndexVar)
  | IndexExpr (type : Type_) (resultVars : List IndexVar) (value : Expr)
  | Call (type : Type_) (func : Func) (actuals : List Expr)
  | Neg (type : Type_) (a : Expr)
  | Add (type : Type_) (a b : Expr)
  | Sub (type : Type_) (a b : Expr)
  | Mul (type : Type_) (a b : Expr)
  | Div (type : Type_) (a b : Expr)
  | Load (type : Type_) (buffer index : Expr)
/-- The handle class `Stmt`: the null handle, or a handle to a node of one of
the statement structs. -/
inductive Stmt where
  | undefined
  | AssignStmt (var : Var) (value : Expr)
  | Map (vars : List Var) (function : Func) (target neighbors : Expr)
      (reduction : ReductionOperator)
  | FieldWrite (elementOrSet : Expr) (fieldName : String) (value : Expr)
  | TensorWrite (tensor : Expr) (indices : List Expr) (value : Expr)
  | Store (buffer index value : Expr)
  | ForRange (var : Var) (start end_ : Expr) (body : Stmt)
  | For (var : Var) (domain : ForDomain) (body : Stmt)
  | IfThenElse (condition : Expr) (thenBody elseBody : Stmt)
  | Block (first rest : Stmt)
  | Pass
/-- The struct `ForDomain`. -/
inductive ForDomain where
  | mk (kind : ForDomain.Kind) (indexSet : IndexSet) (set : Expr) (var : Var)
/-- The handle class `Func`: the null handle, or a function with the fields of
`FuncContent`. -/
inductive Func where
  | undefined
  | mk (kind : Func.Kind) (name : String) (arguments results : List Var) (body : Stmt)
      (temporaries : List Var)
end

/-- The method `defined` of an `Expr` handle. -/
def Expr.defined : Expr → Bool
  | Expr.undefined => false
  | _ => true

/-- The method `defined` of a `Stmt` handle. -/
def Stmt.defined : Stmt → Bool
  | Stmt.undefined => false
  | _ => true

/-- The method `Expr::type`: reads the `type` field through the handle. -/
def Expr.type : Expr → Result Type_
  | Expr.undefined => Result.fail Failure.undefinedBehaviour
  | Expr.Literal t _ _ => Result.ok t
  | Expr.VarExpr t _ => Result.ok t
  | Expr.FieldRead t _ _ => Result.ok t
  | Expr.TensorRead t _ _ => Result.ok t
  | Expr.TupleRead t _ _ => Result.ok t
  | Expr.IndexRead t _ _ => Result.ok t
  | Expr.Length t _ => Result.ok t
  | Expr.IndexedTensor t _ _ => Result.ok t
  | Expr.IndexExpr t _ _ => Result.ok t
  | Expr.Call t _ _ => Result.ok t
  | Expr.Neg t _ => Result.ok t
  | Expr.Add t _ _ => Result.ok t
  | Expr.Sub t _ _ => Result.ok t
  | Expr.Mul t _ _ => Result.ok t
  | Expr.Div t _ _ => Result.ok t
  | Expr.Load t _ _ => Result.ok t

/-- A `void*`: null, or an address given by the bytes found at successive
offsets from it.  The extent of the allocation behind the address is not part
of the value. -/
abbrev Pointer := Option (Nat → Byte)

/-- A `std::vector<double>`: its element count and what `data()` returns.
The elements occupy the first `8 * size` bytes behind `data`. -/
structure DoubleVector where
  size : Nat
  data : Pointer

/-- The largest request that `malloc` can satisfy: no object exceeds
`PTRDIFF_MAX = 2 ^ 63 - 1` bytes. -/
def maxAllocation : Nat := 2 ^ 63 - 1

/-- The C library call `malloc(size)`, as far as `Literal::make` depends on it:
whether the pointer returned is not null.  A request above `maxAllocation`
returns null; for a request within it memory is taken to be available. -/
def malloc (size : Nat) : Bool := decide (size ≤ maxAllocation)

/-- The `memcpy` or `memset` of `Literal::make`, which writes `size` bytes through
the pointer that `malloc` returned without testing it: the bytes written, or no
return when that pointer is null. -/
def Literal.fill (allocated : Bool) (values : Pointer) (size : Nat) : Result (List Byte) :=
  if allocated then
    match values with
    | some p => Result.ok ((List.range size).map p)
    | none => Result.ok (List.replicate size 0)
  else
    Result.fail Failure.undefinedBehaviour

/-- The two-argument `Literal::make(Type, void*)`. -/
def Literal.make (type : Type_) (values : Pointer) : Result Expr := do
  let isTensor ← type.isTensor
  iassert isTensor "type.isTensor()" "only tensor literals are supported for now"
  let kind ← type.kind
  let size ← (match kind with
    | Kind.Tensor => do
        let ttype ← type.toTensor
        Result.ok (wrapSize (ttype.size * sizeOfInt ttype.componentType.bytes))
    | _ => do
        iassert false "false" "Only tensor and scalar literals currently supported"
        Result.ok 0)
  let data ← Literal.fill (malloc size) values size
  Result.ok (Expr.Literal type data size)

/-- The one-argument `Literal::make(Type)`. -/
def Literal.makeNoValues (type : Type_) : Result Expr := Literal.make type none

/-- The overload `Literal::make(Type, std::vector<double>)`. -/
def Literal.makeVector (type : Type_) (values : DoubleVector) : Result Expr := do
  let scalar ← isScalar type
  let fits ← (if scalar then Result.ok true else do
    let ttype ← type.toTensor
    Result.ok (ttype.size == values.size))
  iassert fits "isScalar(type) || type.toTensor()->size() == values.size()" ""
  Literal.make type values.data

/-- The function `VarExpr::make`. -/
def VarExpr.make (var : Var) : Result Expr := do
  let type ← var.getType
  Result.ok (Expr.VarExpr type var)

/-- The body of the loop over `indices` in `TensorRead::make`. -/
def TensorRead.checkIndex (index : Expr) : Result Unit := do
  let type ← index.type
  let scalar ← isScalar type
  let accepted ← (if scalar then Result.ok true else type.isElement)
  iassert accepted "isScalar(index.type()) || index.type().isElement()" ""

/-- The function `TensorRead::make`.  `getBlockType` is declared in `ir.h` and
defined outside the sources; it is a parameter here. -/
def TensorRead.make (getBlockType : Expr → Result Type_) (tensor : Expr)
    (indices : List Expr) : Result Expr := do
  let tensorType ← tensor.type
  let isTensor ← tensorType.isTensor
  iassert isTensor "tensor.type().isTensor()" ""
  forEach TensorRead.checkIndex indices
  let type ← getBlockType tensor
  Result.ok (Expr.TensorRead type tensor indices)

/-- The body of the loop over `i` in `IndexedTensor::make`; a subscript out of
range does not return.  The string literal that the source conjoins to the
condition is carried as the message. -/
def IndexedTensor.checkDomain (tensor : Expr) (indexVars : List IndexVar) (i : Nat) :
    Result Unit := do
  let tensorType ← tensor.type
  let ttype ← tensorType.toTensor
  match indexVars[i]?, ttype.dimensions[i]? with
  | some v, some d =>
      iassert (v.getDomain == d)
        "indexVars[i].getDomain() == tensor.type().toTensor()->dimensions[i]"
        "IndexVar domain does not match tensordimension"
  | _, _ => Result.fail Failure.undefinedBehaviour

/-- The function `IndexedTensor::make`. -/
def IndexedTensor.make (tensor : Expr) (indexVars : List IndexVar) : Result Expr := do
  let tensorType ← tensor.type
  let isTensor ← tensorType.isTensor
  iassert isTensor "tensor.type().isTensor()" "Only tensors can be indexed."
  let ttype ← tensorType.toTensor
  iassert (indexVars.length == ttype.order)
    "indexVars.size() == tensor.type().toTensor()->order()" ""
  forEach (IndexedTensor.checkDomain tensor indexVars) (List.range indexVars.length)
  let ttype ← tensorType.toTensor
  Result.ok (Expr.IndexedTensor (TensorType.makeScalar ttype.componentType) tensor indexVars)

/-- The function `Neg::make`. -/
def Neg.make (a : Expr) : Result Expr := do
  let aType ← a.type
  let scalar ← isScalar aType
  iassert scalar "isScalar(a.type())" ""
  Result.ok (Expr.Neg aType a)

/-- The function `Add::make`. -/
def Add.make (a b : Expr) : Result Expr := do
  let aType ← a.type
  let scalar ← isScalar aType
  iassert scalar "isScalar(a.type())" ""
  let bType ← b.type
  iassert (typeEq aType bType) "a.type() == b.type()" ""
  Result.ok (Expr.Add aType a b)

/-- The function `Sub::make`. -/
def Sub.make (a b : Expr) : Result Expr := do
  let aType ← a.type
  let scalar ← isScalar aType
  iassert scalar "isScalar(a.type())" ""
  let bType ← b.type
  iassert (typeEq aType bType) "a.type() == b.type()" ""
  Result.ok (Expr.Sub aType a b)

/-- The function `Mul::make`. -/
def Mul.make (a b : Expr) : Result Expr := do
  let aType ← a.type
  let scalar ← isScalar aType
  iassert scalar "isScalar(a.type())" ""
  let bType ← b.type
  iassert (typeEq aType bType) "a.type() == b.type()" ""
  Result.ok (Expr.Mul aType a b)

/-- The function `Div::make`. -/
def Div.make (a b : Expr) : Result Expr := do
  let aType ← a.type
  let scalar ← isScalar aType
  iassert scalar "isScalar(a.type())" ""
  let bType ← b.type
  iassert (typeEq aType bType) "a.type() == b.type()" ""
  Result.ok (Expr.Div aType a b)

/-- The function `AssignStmt::make`. -/
def AssignStmt.make (var : Var) (value : Expr) : Stmt := Stmt.AssignStmt var value

/-- The function `Pass::make`. -/
def Pass.make : Stmt := Stmt.Pass

/-- The two-argument `Block::make(Stmt, Stmt)`. -/
def Block.make (first rest : Stmt) : Result Stmt := do
  iassert first.defined "first.defined()" "Empty block"
  Result.ok (Stmt.Block first rest)

/-- The loop of `Block::make(std::vector<Stmt>)`: `i` counts down to 0 and
each round wraps `stmts[i-1]` around `node`. -/
def Block.makeLoop (stmts : List Stmt) : Nat → Stmt → Result Stmt
  | 0, node => Result.ok node
  | i + 1, node =>
    match stmts[i]? with
    | some s => (Block.make s node).bind (fun next => Block.makeLoop stmts i next)
    | none => Result.fail Failure.undefinedBehaviour

/-- The overload `Block::make(std::vector<Stmt>)`. -/
def Block.makeVector (stmts : List Stmt) : Result Stmt := do
  iassert (decide (stmts.length > 0)) "stmts.size() > 0" "Empty block"
  Block.makeLoop stmts stmts.length Stmt.undefined

/-- The statements met when following the `rest` links of a block chain: the
`first` field of each `Block`, in order. -/
def Stmt.blockFirsts : Stmt → List Stmt
  | Stmt.Block first rest => first :: Stmt.blockFirsts rest
  | _ => []

/-- The handle at which a block chain ends: the `rest` field of the last
`Block` reached by following the `rest` links. -/
def Stmt.blockEnd : Stmt → Stmt
  | Stmt.Block _ rest => Stmt.blockEnd rest
  | s => s

/-- The number of `Block` nodes along the `rest` links. -/
def Stmt.blockCount : Stmt → Nat
  | Stmt.Block _ rest => Stmt.blockCount rest + 1
  | _ => 0

/-- The four binary arithmetic structs of `ir.h`. -/
inductive BinaryOp where
  | Add
  | Sub
  | Mul
  | Div
deriving DecidableEq, Repr

/-- The `make` function of the struct named by `op`. -/
def BinaryOp.make : BinaryOp → Expr → Expr → Result Expr
  | BinaryOp.Add => Add.make
  | BinaryOp.Sub => Sub.make
  | BinaryOp.Mul => Mul.make
  | BinaryOp.Div => Div.make

/-- The node of the struct named by `op` with the given `type`, `a` and `b`. -/
def BinaryOp.node : BinaryOp → Type_ → Expr → Expr → Expr
  | BinaryOp.Add => Expr.Add
  | BinaryOp.Sub => Expr.Sub
  | BinaryOp.Mul => Expr.Mul
  | BinaryOp.Div => Expr.Div

/-- Modelled from the spec: the visitor (`ir_visitor.h`) is not among the
sources.  Its default visit of a `Block` descends into `first` and then, when
it is defined, into `rest`.  The list holds the statements reached in this way
that are not themselves `Block`s, in visiting order. -/
def Stmt.inOrder : Stmt → List Stmt
  | Stmt.undefined => []
  | Stmt.Block first rest => Stmt.inOrder first ++ Stmt.inOrder rest
  | s => [s]

/-- The function `Load::make`. -/
def Load.make (buffer index : Expr) : Result Expr := do
  let indexType ← index.type
  let scalar ← isScalar indexType
  iassert scalar "isScalar(index.type())" ""
  let bufferType ← buffer.type
  let ttype ← bufferType.toTensor
  Result.ok (Expr.Load (TensorType.makeScalar ttype.componentType) buffer index)

/-! ## Functions (`Func` of `ir.h`) -/

/-- The method `defined` of a `Func` handle. -/
def Func.defined : Func → Bool
  | Func.undefined => false
  | Func.mk _ _ _ _ _ _ => true

/-- The accessor `Func::getKind`, which dereferences the handle. -/
def Func.getKind : Func → Result Func.Kind
  | Func.undefined => Result.fail Failure.undefinedBehaviour
  | Func.mk kind _ _ _ _ _ => Result.ok kind

/-- The accessor `Func::getName`, which dereferences the handle. -/
def Func.getName : Func → Result String
  | Func.undefined => Result.fail Failure.undefinedBehaviour
  | Func.mk _ name _ _ _ _ => Result.ok name

/-- The accessor `Func::getArguments`, which dereferences the handle. -/
def Func.getArguments : Func → Result (List Var)
  | Func.undefined => Result.fail Failure.undefinedBehaviour
  | Func.mk _ _ arguments _ _ _ => Result.ok arguments

/-- The accessor `Func::getResults`, which dereferences the handle. -/
def Func.getResults : Func → Result (List Var)
  | Func.undefined => Result.fail Failure.undefinedBehaviour
  | Func.mk _ _ _ results _ _ => Result.ok results

/-- The accessor `Func::getBody`, which dereferences the handle. -/
def Func.getBody : Func → Result Stmt
  | Func.undefined => Result.fail Failure.undefinedBehaviour
  | Func.mk _ _ _ _ body _ => Result.ok body

/-- The constructor `Func(name, arguments, results, body, kind)`: a new
`FuncContent` with the five fields assigned and `temporaries` left empty.  In
the source `kind` defaults to `Internal`. -/
def Func.make (name : String) (arguments results : List Var) (body : Stmt)
    (kind : Func.Kind) : Func :=
  Func.mk kind name arguments results body []

/-- The body-less constructor `Func(name, arguments, results, kind)`: delegates
to the five-argument constructor with the body `Stmt()` and then asserts
`kind != Internal`. -/
def Func.makeBodyless (name : String) (arguments results : List Var) (kind : Func.Kind) :
    Result Func := do
  let func := Func.make name arguments results Stmt.undefined kind
  iassert (kind != Func.Kind.Internal) "kind != Internal" ""
  Result.ok func

/-- The prototype-copy constructor `Func(func, body)`: delegates to the
five-argument constructor with the name, arguments, results and kind read from
`func`. -/
def Func.makeCopy (func : Func) (body : Stmt) : Result Func := do
  let name ← func.getName
  let arguments ← func.getArguments
  let results ← func.getResults
  let kind ← func.getKind
  Result.ok (Func.make name arguments results body kind)

/-- The struct `FuncContent`, without its reference count. -/
structure FuncContent where
  kind : Func.Kind
  name : String
  arguments : List Var
  results : List Var
  body : Stmt
  temporaries : List Var

/-- The `FuncContent` objects allocated so far; the address of an object is its
position. -/
abbrev FuncHeap := List FuncContent

/-- A `Func` handle as a pointer: null, or the address of a `FuncContent`. -/
abbrev FuncPtr := Option Nat

/-- The function that the pointer `p` stands for in `heap`. -/
def FuncHeap.func (heap : FuncHeap) (p : FuncPtr) : Func :=
  match p with
  | none => Func.undefined
  | some address =>
    match heap[address]? with
    | some c => Func.mk c.kind c.name c.arguments c.results c.body c.temporaries
    | none => Func.undefined

/-- The five-argument constructor together with its allocation: `new
FuncContent` takes a fresh address, its fields are assigned, and the handle
points to it.  No existing object is written. -/
def FuncHeap.construct (heap : FuncHeap) (name : String) (arguments results : List Var)
    (body : Stmt) (kind : Func.Kind) : FuncHeap × FuncPtr :=
  (heap ++ [{ kind := kind, name := name, arguments := arguments, results := results,
              body := body, temporaries := [] }],
   some heap.length)

/-- The prototype-copy constructor together with its allocation: it reads
`func` through its accessors and delegates to the five-argument constructor. -/
def FuncHeap.constructCopy (heap : FuncHeap) (func : FuncPtr) (body : Stmt) :
    Result (FuncHeap × FuncPtr) := do
  let name ← (heap.func func).getName
  let arguments ← (heap.func func).getArguments
  let results ← (heap.func func).getResults
  let kind ← (heap.func func).getKind
  Result.ok (heap.construct name arguments results body kind)

/-- The function `Call::make`. -/
def Call.make (func : Func) (actuals : List Expr) : Result Expr := do
  let results ← func.getResults
  iassert (results.length == 1) "func.getResults().size() == 1"
    "only calls of function with one results is currently supported."
  match results[0]? with
  | some result => do
      let type ← result.getType
      Result.ok (Expr.Call type func actuals)
  | none => Result.fail Failure.undefinedBehaviour

/-- The function `Map::make`.  In the source `neighbors` defaults to `Expr()`
and `reduction` to `ReductionOperator()`. -/
def Map.make (vars : List Var) (function : Func) (target neighbors : Expr)
    (reduction : ReductionOperator) : Result Stmt := do
  let targetType ← target.type
  let targetIsSet ← targetType.isSet
  iassert targetIsSet "target.type().isSet()" ""
  let neighborsOk ← (if !neighbors.defined then Result.ok true else do
    let neighborsType ← neighbors.type
    neighborsType.isSet)
  iassert neighborsOk "!neighbors.defined() || neighbors.type().isSet()" ""
  let results ← function.getResults
  iassert (vars.length == results.length) "vars.size() == function.getResults().size()" ""
  Result.ok (Stmt.Map vars function target neighbors reduction)

/-! ## Tensor indices (`tensor_index.cpp`) -/

/-- Modelled from the spec: the path-expression algebra (`pe::PathExpression`)
is outside the sources and is treated as an opaque value type. -/
structure PathExpression where
  tag : Nat
deriving DecidableEq, Repr

/-- The class `TensorIndex`: the four members that its constructor initialises
and its accessors return. -/
structure TensorIndex where
  name : String
  pexpr : PathExpression
  coordArray : Var
  sinkArray : Var

/-- The constructor `TensorIndex::TensorIndex(name, pexpr)`.  `ArrayType::make`
is not declared in the sources; it is the parameter `arrayTypeMake`, applied as
in the source to `ScalarType::Int`. -/
def TensorIndex.construct (arrayTypeMake : ScalarType.Kind → Type_) (name : String)
    (pexpr : PathExpression) : TensorIndex :=
  let pre := if name == "" then name else name ++ "_"
  { name := name, pexpr := pexpr,
    coordArray := Var.mk (pre ++ "coords") (arrayTypeMake ScalarType.Kind.Int),
    sinkArray := Var.mk (pre ++ "sinks") (arrayTypeMake ScalarType.Kind.Int) }

/-- The accessor `TensorIndex::getName`. -/
def TensorIndex.getName (ti : TensorIndex) : String := ti.name

/-- The accessor `TensorIndex::getPathExpression`. -/
def TensorIndex.getPathExpression (ti : TensorIndex) : PathExpression := ti.pexpr

/-- The accessor `TensorIndex::getCoordArray`. -/
def TensorIndex.getCoordArray (ti : TensorIndex) : Var := ti.coordArray

/-- The accessor `TensorIndex::getSinkArray`. -/
def TensorIndex.getSinkArray (ti : TensorIndex) : Var := ti.sinkArray

/-! ## Runtime tests and projections (`isa`, `to`) -/

/-- The index domain `N` of the examples, of cardinality 3. -/
def Example.N : IndexDomain := { name := "N", cardinality := 3 }

/-- The type `Float(64)[N]`. -/
def Example.vectorType : Type_ :=
  TensorType.make { kind := ScalarType.Kind.Float, bits := 64 } [Example.N] false

/-- The type `Float(64)[N,N]`. -/
def Example.matrixType : Type_ :=
  TensorType.make { kind := ScalarType.Kind.Float, bits := 64 } [Example.N, Example.N] false

/-- A read of the variable `M : Float(64)[N,N]`. -/
def Example.M : Expr := Expr.VarExpr Example.matrixType (Var.mk "M" Example.matrixType)

/-- A read of the variable `v : Float(64)`. -/
def Example.v : Expr := Expr.VarExpr (Type_.Float 64) (Var.mk "v" (Type_.Float 64))

/-- A read of the variable `w : Int(32)`. -/
def Example.w : Expr := Expr.VarExpr (Type_.Int 32) (Var.mk "w" (Type_.Int 32))

/-- A read of the variable `i : Int(32)`. -/
def Example.i : Expr := Expr.VarExpr (Type_.Int 32) (Var.mk "i" (Type_.Int 32))

/-- A read of the variable `j : Int(32)`. -/
def Example.j : Expr := Expr.VarExpr (Type_.Int 32) (Var.mk "j" (Type_.Int 32))

/-- A sample `getBlockType`: the scalar tensor of the component type of the
operand. -/
def Example.getBlockType (tensor : Expr) : Result Type_ := do
  let type ← tensor.type
  let ttype ← type.toTensor
  Result.ok (TensorType.makeScalar ttype.componentType)

/-- The literal `Literal::make(Int(32), {0})`: four zero bytes. -/
def Example.zeroLiteral : Expr := Expr.Literal (Type_.Int 32) [0, 0, 0, 0] 4

/-- A `std::vector<double>` holding the single value `0.0`, whose bytes are
all zero. -/
def Example.zeroVector : DoubleVector := { size := 1, data := some (fun _ => 0) }

/-- The function `f = Func("g", [a], [r], bodyA)` of the examples, with `bodyA`
the statement `Pass`. -/
def Example.contentG : FuncContent :=
  { kind := Func.Kind.Internal, name := "g",
    arguments := [Var.mk "a" (Type_.Float 64)], results := [Var.mk "r" (Type_.Float 64)],
    body := Stmt.Pass, temporaries := [] }

/-- The statement `bodyB` of the examples: an assignment to `r`. -/
def Example.bodyB : Stmt :=
  Stmt.AssignStmt (Var.mk "r" (Type_.Float 64))
    (Expr.VarExpr (Type_.Float 64) (Var.mk "a" (Type_.Float 64)))

/-- The Element type `Point` of the examples, without fields. -/
def Example.pointType : Type_ := ElementType.make "Point" FieldMap.nil

/-- The Set type over `Point`. -/
def Example.pointsType : Type_ := Type_.ofSet (SetType.mk Example.pointType)

/-- A read of the variable `points`, a set of `Point`. -/
def Example.points : Expr := Expr.VarExpr Example.pointsType (Var.mk "points" Example.pointsType)

/-- The function `g` of the examples as a handle. -/
def Example.g : Func :=
  Func.mk Func.Kind.Internal "g" [Var.mk "a" (Type_.Float 64)] [Var.mk "r" (Type_.Float 64)]
    Stmt.Pass []

/-! ## Basic facts about results and checks -/

theorem Result.bind_ok {α β : Type} (a : α) (f : α → Result β) :
    (Result.ok a).bind f = f a := rfl

theorem Result.bind_fail {α β : Type} (e : Failure) (f : α → Result β) :
    (Result.fail e : Result α).bind f = Result.fail e := rfl

theorem Result.monad_bind {α β : Type} (x : Result α) (f : α → Result β) :
    (x >>= f) = x.bind f := rfl

theorem Result.monad_pure {α : Type} (a : α) : (pure a : Result α) = Result.ok a := rfl

theorem Result.bind_eq_ok {α β : Type} (x : Result α) (f : α → Result β) (b : β) :
    x.bind f = Result.ok b ↔ ∃ a, x = Result.ok a ∧ f a = Result.ok b := by
  cases x with
  | ok a => simp [Result.bind]
  | fail e => simp [Result.bind]

theorem iassert_eq_ok (c : Bool) (cond msg : String) (u : Unit) :
    iassert c cond msg = Result.ok u ↔ c = true := by
  cases c <;> simp [iassert]

theorem iassert_true (cond msg : String) : iassert true cond msg = Result.ok () := rfl

theorem iassert_false (cond msg : String) :
    iassert false cond msg = Result.fail (Failure.iassert cond msg) := rfl

theorem cassert_eq_ok (c : Bool) (cond : String) (u : Unit) :
    cassert c cond = Result.ok u ↔ c = true := by
  cases c <;> simp [cassert]

theorem forEach_eq_ok {α : Type} (f : α → Result Unit) (xs : List α) (u : Unit) :
    forEach f xs = Result.ok u ↔ ∀ x ∈ xs, f x = Result.ok () := by
  induction xs with
  | nil => simp [forEach]
  | cons x xs ih =>
    simp only [forEach, Result.bind_eq_ok, List.mem_cons, forall_eq_or_imp]
    constructor
    · rintro ⟨_, h1, h2⟩
      exact ⟨h1, ih.mp h2⟩
    · rintro ⟨h1, h2⟩
      exact ⟨(), h1, ih.mpr h2⟩

/-! ## Facts about types -/

theorem Type_.isTensor_eq_ok_true (t : Type_) :
    t.isTensor = Result.ok true ↔ ∃ d, t = Type_.ofTensor d := by
  cases t <;> simp [Type_.isTensor, Type_.kind, Result.bind]

theorem Type_.isElement_eq_ok_true (t : Type_) :
    t.isElement = Result.ok true ↔ ∃ d, t = Type_.ofElement d := by
  cases t <;> simp [Type_.isElement, Type_.kind, Result.bind]

theorem Type_.toTensor_ofTensor (d : TensorType) :
    (Type_.ofTensor d).toTensor = Result.ok d := rfl

theorem Type_.toTensor_eq_ok (t : Type_) (d : TensorType) :
    t.toTensor = Result.ok d ↔ t = Type_.ofTensor d := by
  cases t <;>
    simp [Type_.toTensor, Type_.isTensor, Type_.kind, Result.bind, Result.monad_bind, cassert]

theorem isScalar_ofTensor (d : TensorType) :
    isScalar (Type_.ofTensor d) = Result.ok (d.order == 0) := rfl

theorem isScalar_eq_ok_true (t : Type_) :
    isScalar t = Result.ok true ↔ ∃ d, t = Type_.ofTensor d ∧ d.order = 0 := by
  cases t <;>
    simp [isScalar, isScalarTensor, Type_.kind, Result.bind, Result.monad_bind,
      Type_.toTensor, Type_.isTensor, cassert]

theorem Expr.type_binaryNode (op : BinaryOp) (t : Type_) (a b : Expr) :
    (op.node t a b).type = Result.ok t := by
  cases op <;> rfl

/-! ## Binary arithmetic -/

/-- C1: whenever `op::make(a, b)` succeeds for `op` among Add, Sub, Mul, Div, the
operand types compare equal, the type of `a` is a tensor of order 0, the
cached type of the result is the type of `a`, and the node holds exactly `a`
and `b`. -/
theorem binary_make_sound (op : BinaryOp) (a b e : Expr)
    (h : op.make a b = Result.ok e) :
    ∃ ta tb d, a.type = Result.ok ta ∧ b.type = Result.ok tb ∧ typeEq ta tb = true ∧
      isScalar ta = Result.ok true ∧ ta = Type_.ofTensor d ∧ d.order = 0 ∧
      e.type = Result.ok ta ∧ e = op.node ta a b := by
  have key : ∃ ta, a.type = Result.ok ta ∧ isScalar ta = Result.ok true ∧
      ∃ tb, b.type = Result.ok tb ∧ typeEq ta tb = true ∧ e = op.node ta a b := by
    cases op <;>
      simp only [BinaryOp.make, Add.make, Sub.make, Mul.make, Div.make, Result.monad_bind,
        Result.bind_eq_ok, iassert_eq_ok] at h <;>
      obtain ⟨ta, hta, sc, hsc, _, hsc2, tb, htb, _, heq, he⟩ := h <;>
      subst hsc2 <;>
      exact ⟨ta, hta, hsc, tb, htb, heq, (Result.ok.inj he).symm⟩
  obtain ⟨ta, hta, hsc, tb, htb, heq, he⟩ := key
  obtain ⟨d, hd, hord⟩ := (isScalar_eq_ok_true ta).mp hsc
  exact ⟨ta, tb, d, hta, htb, heq, hsc, hd, hord, by rw [he, Expr.type_binaryNode], he⟩

/-- Witness for C1: `Add::make` on two reads of a `Float(64)` variable. -/
theorem binary_make_sound_witness :
    ∃ ta tb d,
      Example.v.type = Result.ok ta ∧
      Example.v.type = Result.ok tb ∧
      typeEq ta tb = true ∧ isScalar ta = Result.ok true ∧ ta = Type_.ofTensor d ∧
      d.order = 0 ∧
      (Expr.Add (Type_.Float 64) Example.v Example.v).type = Result.ok ta ∧
      Expr.Add (Type_.Float 64) Example.v Example.v = BinaryOp.Add.node ta Example.v Example.v :=
  binary_make_sound BinaryOp.Add Example.v Example.v
    (Expr.Add (Type_.Float 64) Example.v Example.v) rfl

theorem isScalar_succeeds_of_defined (t : Type_) (h : t.defined = true) :
    ∃ s, isScalar t = Result.ok s := by
  cases t <;>
    simp_all [isScalar, isScalarTensor, Type_.kind, Result.bind, Result.monad_bind,
      Type_.toTensor, Type_.isTensor, cassert, Type_.defined]

theorem isScalar_fails_of_undefined :
    isScalar Type_.undefined = Result.fail Failure.undefinedBehaviour :=
  rfl

/-- C2: for expressions `a`, `b` whose handles are defined, `op::make(a, b)` does
not return when the operand types compare unequal or the type of `a` is not a
scalar; when the type of `a` is itself a defined type, the failure is one of
the two `iassert`s of `make`.  In particular `Add::make` of a read of a
`Float(64)` variable and the literal `Literal::make(Int(32), {1})` fails on
`iassert(a.type() == b.type())`. -/
theorem binary_make_rejects :
    (∀ (op : BinaryOp) (a b : Expr) (ta tb : Type_),
        a.type = Result.ok ta → b.type = Result.ok tb →
        (typeNe ta tb = true ∨ isScalar ta ≠ Result.ok true) →
        (op.make a b).succeeds = false ∧
        (ta.defined = true →
          op.make a b = Result.fail (Failure.iassert "isScalar(a.type())" "") ∨
          op.make a b = Result.fail (Failure.iassert "a.type() == b.type()" ""))) ∧
    (∀ (name : String) (data : Pointer), ∃ va lit,
        VarExpr.make (Var.mk name (Type_.Float 64)) = Result.ok va ∧
        Literal.makeVector (Type_.Int 32) { size := 1, data := data } = Result.ok lit ∧
        lit.type = Result.ok (Type_.Int 32) ∧
        Add.make va lit = Result.fail (Failure.iassert "a.type() == b.type()" "")) := by
  constructor
  · intro op a b ta tb ha hb h
    have hne : typeNe ta tb = true → typeEq ta tb = false := by
      intro h1
      simpa [typeNe] using h1
    cases hs : isScalar ta with
    | fail f =>
      constructor
      · cases op <;>
          simp [BinaryOp.make, Add.make, Sub.make, Mul.make, Div.make, Result.monad_bind,
            ha, hs, Result.bind, Result.succeeds]
      · intro hd
        obtain ⟨s, hs2⟩ := isScalar_succeeds_of_defined ta hd
        rw [hs] at hs2
        cases hs2
    | ok s =>
      cases s with
      | false =>
        constructor
        · cases op <;>
            simp [BinaryOp.make, Add.make, Sub.make, Mul.make, Div.make, Result.monad_bind,
              ha, hs, Result.bind, Result.succeeds, iassert]
        · intro _
          left
          cases op <;>
            simp [BinaryOp.make, Add.make, Sub.make, Mul.make, Div.make, Result.monad_bind,
              ha, hs, Result.bind, iassert]
      | true =>
        have heq : typeEq ta tb = false := by
          rcases h with h | h
          · exact hne h
          · exact absurd hs h
        constructor
        · cases op <;>
            simp [BinaryOp.make, Add.make, Sub.make, Mul.make, Div.make, Result.monad_bind,
              ha, hb, hs, heq, Result.bind, Result.succeeds, iassert]
        · intro _
          right
          cases op <;>
            simp [BinaryOp.make, Add.make, Sub.make, Mul.make, Div.make, Result.monad_bind,
              ha, hb, hs, heq, Result.bind, iassert]
  · intro name data
    cases data with
    | none =>
      exact ⟨_, _, rfl, rfl, rfl, rfl⟩
    | some p =>
      exact ⟨_, _, rfl, rfl, rfl, rfl⟩

/-- Witness for C2: a `Float(64)` read against an `Int(32)` read. -/
theorem binary_make_rejects_witness :
    (BinaryOp.Add.make Example.v Example.w).succeeds = false ∧
      ((Type_.Float 64).defined = true →
        BinaryOp.Add.make Example.v Example.w
          = Result.fail (Failure.iassert "isScalar(a.type())" "") ∨
        BinaryOp.Add.make Example.v Example.w
          = Result.fail (Failure.iassert "a.type() == b.type()" "")) :=
  binary_make_rejects.1 BinaryOp.Add Example.v Example.w (Type_.Float 64) (Type_.Int 32)
    rfl rfl (Or.inl (by decide))

/-! ## Tensor reads -/

/-- C3, as the code has it: when `TensorRead::make(t, idx)` succeeds, `t` has a
Tensor type, every index has a scalar or an Element type, and the cached type
of the result is `getBlockType(t)`, a value computed from the tensor operand
alone, whatever `idx` is; the node holds exactly `t` and `idx`. -/
theorem tensorRead_make_type (getBlockType : Expr → Result Type_) (tensor : Expr)
    (indices : List Expr) (e : Expr)
    (h : TensorRead.make getBlockType tensor indices = Result.ok e) :
    ∃ d blockType, tensor.type = Result.ok (Type_.ofTensor d) ∧
      (∀ index ∈ indices, ∃ ti, index.type = Result.ok ti ∧
        (isScalar ti = Result.ok true ∨ ti.isElement = Result.ok true)) ∧
      getBlockType tensor = Result.ok blockType ∧
      e.type = Result.ok blockType ∧
      e = Expr.TensorRead blockType tensor indices := by
  simp only [TensorRead.make, Result.monad_bind, Result.bind_eq_ok, iassert_eq_ok,
    forEach_eq_ok] at h
  obtain ⟨tt, htt, isT, hisT, _, hT, _, hidx, bt, hbt, he⟩ := h
  subst hT
  obtain ⟨d, hd⟩ := (Type_.isTensor_eq_ok_true tt).mp hisT
  subst hd
  have he2 : e = Expr.TensorRead bt tensor indices := (Result.ok.inj he).symm
  refine ⟨d, bt, htt, ?_, hbt, by rw [he2]; rfl, he2⟩
  intro index hmem
  have hc := hidx index hmem
  simp only [TensorRead.checkIndex, Result.monad_bind, Result.bind_eq_ok, iassert_eq_ok] at hc
  obtain ⟨ti, hti, sc, hsc, acc, hacc, hacc2⟩ := hc
  subst hacc2
  refine ⟨ti, hti, ?_⟩
  cases sc with
  | true => exact Or.inl hsc
  | false => exact Or.inr (by simpa using hacc)

/-- Witness for C3: a read of `M : Float(64)[N,N]` at one integer index, with a
`getBlockType` that answers the scalar of the component type. -/
theorem tensorRead_make_type_witness :
    ∃ d blockType,
      Example.M.type = Result.ok (Type_.ofTensor d) ∧
      (∀ index ∈ [Example.i], ∃ ti, index.type = Result.ok ti ∧
        (isScalar ti = Result.ok true ∨ ti.isElement = Result.ok true)) ∧
      Example.getBlockType Example.M = Result.ok blockType ∧
      (Expr.TensorRead (Type_.Float 64) Example.M [Example.i]).type = Result.ok blockType ∧
      Expr.TensorRead (Type_.Float 64) Example.M [Example.i]
        = Expr.TensorRead blockType Example.M [Example.i] :=
  tensorRead_make_type Example.getBlockType Example.M [Example.i]
    (Expr.TensorRead (Type_.Float 64) Example.M [Example.i]) rfl

/-- Counterexample to C3 as stated: with `M : Float(64)[N,N]` and integer scalars
`i`, `j`, no definition of `getBlockType` makes `TensorRead(M,[i])` have type
`Float(64)[N]` and `TensorRead(M,[i,j])` have type `Float(64)`, although both
reads are accepted as soon as `getBlockType(M)` returns (here with the sample
`getBlockType`, under which both reads have type `Float(64)`). -/
theorem tensorRead_order_counterexample :
    (¬ ∃ (getBlockType : Expr → Result Type_) (e1 e2 : Expr),
      TensorRead.make getBlockType Example.M [Example.i] = Result.ok e1 ∧
      TensorRead.make getBlockType Example.M [Example.i, Example.j] = Result.ok e2 ∧
      (∃ t1, e1.type = Result.ok t1 ∧ typeEq t1 Example.vectorType = true) ∧
      (∃ t2, e2.type = Result.ok t2 ∧ typeEq t2 (Type_.Float 64) = true)) ∧
    (∃ e1 e2 : Expr,
      TensorRead.make Example.getBlockType Example.M [Example.i] = Result.ok e1 ∧
      TensorRead.make Example.getBlockType Example.M [Example.i, Example.j]
        = Result.ok e2 ∧
      e1.type = Result.ok (Type_.Float 64) ∧ e2.type = Result.ok (Type_.Float 64)) := by
  constructor
  · rintro ⟨gbt, e1, e2, h1, h2, ⟨t1, ht1, hq1⟩, ⟨t2, ht2, hq2⟩⟩
    simp only [TensorRead.make, Result.monad_bind, Result.bind_eq_ok] at h1 h2
    obtain ⟨_, _, _, _, _, _, _, _, bt1, hbt1, he1⟩ := h1
    obtain ⟨_, _, _, _, _, _, _, _, bt2, hbt2, he2⟩ := h2
    rw [hbt1] at hbt2
    have hb : bt1 = bt2 := Result.ok.inj hbt2
    subst hb
    have e1eq := (Result.ok.inj he1).symm
    have e2eq := (Result.ok.inj he2).symm
    subst e1eq
    subst e2eq
    have a1 : bt1 = t1 := Result.ok.inj ht1
    have a2 : bt1 = t2 := Result.ok.inj ht2
    subst a1
    subst a2
    cases bt1 with
    | ofTensor d =>
      simp only [Example.vectorType, typeEq, tensorTypeEq, TensorType.make, Type_.Float,
        TensorType.makeScalar, Bool.and_eq_true, beq_iff_eq] at hq1 hq2
      have c1 := hq1.1.2
      have c2 := hq2.1.2
      rw [c1] at c2
      simp at c2
    | undefined => simp [typeEq, Type_.Float, TensorType.makeScalar, TensorType.make] at hq2
    | ofElement d => simp [typeEq, Type_.Float, TensorType.makeScalar, TensorType.make] at hq2
    | ofSet d => simp [typeEq, Type_.Float, TensorType.makeScalar, TensorType.make] at hq2
    | ofTuple d => simp [typeEq, Type_.Float, TensorType.makeScalar, TensorType.make] at hq2
  · exact ⟨_, _, rfl, rfl, rfl, rfl⟩

/-! ## Indexed tensors -/

theorem IndexedTensor.checkDomain_eq_ok (tensor : Expr) (d : TensorType)
    (indexVars : List IndexVar) (i : Nat)
    (ht : tensor.type = Result.ok (Type_.ofTensor d)) :
    IndexedTensor.checkDomain tensor indexVars i = Result.ok () ↔
      ∃ v dom, indexVars[i]? = some v ∧ d.dimensions[i]? = some dom ∧ v.getDomain = dom := by
  simp only [IndexedTensor.checkDomain, Result.monad_bind, ht, Result.bind_ok,
    Type_.toTensor_ofTensor]
  cases hv : indexVars[i]? with
  | none => simp
  | some v =>
    cases hd : d.dimensions[i]? with
    | none => simp
    | some dom => simp [iassert_eq_ok]

/-- C4: `IndexedTensor::make(t, vars)` succeeds exactly when the type of `t` is
a Tensor type, `vars.size()` equals its order, and the domain of `vars[i]` equals
dimension `i` for every `i < vars.size()`; on success the result type is the
order-0 tensor of the component type of `t`, and the node holds `t` and `vars`. -/
theorem indexedTensor_make_iff (tensor : Expr) (indexVars : List IndexVar) :
    ((∃ e, IndexedTensor.make tensor indexVars = Result.ok e) ↔
      ∃ d, tensor.type = Result.ok (Type_.ofTensor d) ∧
        indexVars.length = d.order ∧
        ∀ (i : Nat) (hv : i < indexVars.length) (hd : i < d.dimensions.length),
          (indexVars.get ⟨i, hv⟩).getDomain = d.dimensions.get ⟨i, hd⟩) ∧
    (∀ e, IndexedTensor.make tensor indexVars = Result.ok e →
      ∃ d, tensor.type = Result.ok (Type_.ofTensor d) ∧
        e = Expr.IndexedTensor
              (Type_.ofTensor { componentType := d.componentType, dimensions := [],
                                isColumnVector := false }) tensor indexVars ∧
        e.type = Result.ok (Type_.ofTensor { componentType := d.componentType,
                                             dimensions := [], isColumnVector := false }) ∧
        isScalar (Type_.ofTensor { componentType := d.componentType, dimensions := [],
                                   isColumnVector := false }) = Result.ok true) := by
  have main : ∀ e, IndexedTensor.make tensor indexVars = Result.ok e ↔
      ∃ d, tensor.type = Result.ok (Type_.ofTensor d) ∧ indexVars.length = d.order ∧
        (∀ i ∈ List.range indexVars.length,
          IndexedTensor.checkDomain tensor indexVars i = Result.ok ()) ∧
        e = Expr.IndexedTensor
              (Type_.ofTensor { componentType := d.componentType, dimensions := [],
                                isColumnVector := false }) tensor indexVars := by
    intro e
    simp only [IndexedTensor.make, Result.monad_bind, Result.bind_eq_ok, iassert_eq_ok,
      forEach_eq_ok, Type_.toTensor_eq_ok]
    constructor
    · rintro ⟨tt, htt, isT, _, _, _, d, hd, _, hlen, _, hloop, d2, hd2, he⟩
      subst hd
      cases hd2
      refine ⟨d, htt, by simpa using hlen, hloop, ?_⟩
      exact (Result.ok.inj he).symm
    · rintro ⟨d, htt, hlen, hloop, he⟩
      refine ⟨Type_.ofTensor d, htt, true, rfl, (), rfl, d, rfl, (), by simpa using hlen,
        (), hloop, d, rfl, ?_⟩
      rw [he]
      rfl
  have loop : ∀ d, tensor.type = Result.ok (Type_.ofTensor d) → indexVars.length = d.order →
      ((∀ i ∈ List.range indexVars.length,
          IndexedTensor.checkDomain tensor indexVars i = Result.ok ()) ↔
        ∀ (i : Nat) (hv : i < indexVars.length) (hd : i < d.dimensions.length),
          (indexVars.get ⟨i, hv⟩).getDomain = d.dimensions.get ⟨i, hd⟩) := by
    intro d htt hlen
    constructor
    · intro h i hv hd
      have hi := (IndexedTensor.checkDomain_eq_ok tensor d indexVars i htt).mp
        (h i (List.mem_range.mpr hv))
      obtain ⟨v, dom, h1, h2, h3⟩ := hi
      rw [List.getElem?_eq_getElem hv] at h1
      rw [List.getElem?_eq_getElem hd] at h2
      cases h1
      cases h2
      simpa using h3
    · intro h i hi
      have hv : i < indexVars.length := List.mem_range.mp hi
      have hd : i < d.dimensions.length := by
        have := hlen
        simp only [TensorType.order] at this
        omega
      refine (IndexedTensor.checkDomain_eq_ok tensor d indexVars i htt).mpr
        ⟨indexVars.get ⟨i, hv⟩, d.dimensions.get ⟨i, hd⟩, ?_, ?_, h i hv hd⟩
      · simp [List.getElem?_eq_getElem hv]
      · simp [List.getElem?_eq_getElem hd]
  constructor
  · constructor
    · rintro ⟨e, he⟩
      obtain ⟨d, htt, hlen, hloop, _⟩ := (main e).mp he
      exact ⟨d, htt, hlen, (loop d htt hlen).mp hloop⟩
    · rintro ⟨d, htt, hlen, hdom⟩
      exact ⟨_, (main _).mpr ⟨d, htt, hlen, (loop d htt hlen).mpr hdom, rfl⟩⟩
  · intro e he
    obtain ⟨d, htt, _, _, heq⟩ := (main e).mp he
    exact ⟨d, htt, heq, by rw [heq]; rfl, rfl⟩

/-- Witness for C4: indexing `M : Float(64)[N,N]` by two index variables over
`N` gives a `Float(64)` scalar. -/
theorem indexedTensor_make_iff_witness :
    ∃ d, Example.M.type = Result.ok (Type_.ofTensor d) ∧
      Expr.IndexedTensor (Type_.Float 64) Example.M
          [{ name := "a", domain := Example.N, reduction := none },
           { name := "b", domain := Example.N, reduction := none }]
        = Expr.IndexedTensor
            (Type_.ofTensor { componentType := d.componentType, dimensions := [],
                              isColumnVector := false }) Example.M
            [{ name := "a", domain := Example.N, reduction := none },
             { name := "b", domain := Example.N, reduction := none }] ∧
      (Expr.IndexedTensor (Type_.Float 64) Example.M
          [{ name := "a", domain := Example.N, reduction := none },
           { name := "b", domain := Example.N, reduction := none }]).type
        = Result.ok (Type_.ofTensor { componentType := d.componentType, dimensions := [],
                                      isColumnVector := false }) ∧
      isScalar (Type_.ofTensor { componentType := d.componentType, dimensions := [],
                                 isColumnVector := false }) = Result.ok true :=
  (indexedTensor_make_iff Example.M
    [{ name := "a", domain := Example.N, reduction := none },
     { name := "b", domain := Example.N, reduction := none }]).2
    (Expr.IndexedTensor (Type_.Float 64) Example.M
      [{ name := "a", domain := Example.N, reduction := none },
       { name := "b", domain := Example.N, reduction := none }])
    rfl

/-! ## Blocks -/

theorem Block.make_defined (first rest : Stmt) (h : first.defined = true) :
    Block.make first rest = Result.ok (Stmt.Block first rest) := by
  simp [Block.make, Result.monad_bind, h, iassert, Result.bind]

theorem Block.makeLoop_take (stmts : List Stmt) (hdef : ∀ s ∈ stmts, s.defined = true) :
    ∀ (i : Nat) (node : Stmt), i ≤ stmts.length →
      Block.makeLoop stmts i node = Result.ok ((stmts.take i).foldr Stmt.Block node) := by
  intro i
  induction i with
  | zero => intro node _; rfl
  | succ i ih =>
    intro node hi
    have hlt : i < stmts.length := hi
    have hmem : stmts[i] ∈ stmts := List.getElem_mem hlt
    simp only [Block.makeLoop, List.getElem?_eq_getElem hlt]
    rw [Block.make_defined _ _ (hdef _ hmem), Result.bind_ok, ih _ (Nat.le_of_lt hlt)]
    rw [List.take_succ, List.getElem?_eq_getElem hlt, List.foldr_append]
    rfl

theorem Stmt.blockFirsts_foldr (stmts : List Stmt) :
    (stmts.foldr Stmt.Block Stmt.undefined).blockFirsts = stmts := by
  induction stmts with
  | nil => rfl
  | cons s rest ih => simp [Stmt.blockFirsts, ih]

theorem Stmt.blockCount_foldr (stmts : List Stmt) :
    (stmts.foldr Stmt.Block Stmt.undefined).blockCount = stmts.length := by
  induction stmts with
  | nil => rfl
  | cons s rest ih => simp [Stmt.blockCount, ih]

theorem Stmt.blockEnd_foldr (stmts : List Stmt) :
    (stmts.foldr Stmt.Block Stmt.undefined).blockEnd = Stmt.undefined := by
  induction stmts with
  | nil => rfl
  | cons s rest ih => simp [Stmt.blockEnd, ih]

theorem Stmt.inOrder_leaf (s : Stmt) (hd : s.defined = true)
    (hb : ∀ first rest, s ≠ Stmt.Block first rest) : s.inOrder = [s] := by
  cases s <;> simp_all [Stmt.inOrder, Stmt.defined]

theorem Stmt.inOrder_foldr (stmts : List Stmt) (hdef : ∀ s ∈ stmts, s.defined = true)
    (hb : ∀ s ∈ stmts, ∀ first rest, s ≠ Stmt.Block first rest) :
    (stmts.foldr Stmt.Block Stmt.undefined).inOrder = stmts := by
  induction stmts with
  | nil => rfl
  | cons s rest ih =>
    have h1 : s.inOrder = [s] :=
      Stmt.inOrder_leaf s (hdef s (List.mem_cons_self _ _)) (hb s (List.mem_cons_self _ _))
    have h2 := ih (fun x hx => hdef x (List.mem_cons_of_mem _ hx))
      (fun x hx => hb x (List.mem_cons_of_mem _ hx))
    simp [Stmt.inOrder, h1, h2]

/-- C5: for a non-empty sequence of defined statements, `Block::make(stmts)`
returns the right-linked chain `Block(s1, Block(s2, ... Block(sn, undefined)))`:
it has exactly `n` `Block` nodes along the `rest` links, their `first` fields are
`s1, ..., sn` in order, the last `rest` is the undefined handle, and, when no
`si` is itself a `Block`, the in-order walk meets exactly `s1, ..., sn`. -/
theorem block_makeVector_chain (stmts : List Stmt) (hne : stmts ≠ [])
    (hdef : ∀ s ∈ stmts, s.defined = true) :
    ∃ b, Block.makeVector stmts = Result.ok b ∧
      b = stmts.foldr Stmt.Block Stmt.undefined ∧
      b.blockFirsts = stmts ∧
      b.blockCount = stmts.length ∧
      b.blockEnd = Stmt.undefined ∧
      ((∀ s ∈ stmts, ∀ first rest, s ≠ Stmt.Block first rest) → b.inOrder = stmts) := by
  have hpos : 0 < stmts.length := List.length_pos.mpr hne
  refine ⟨stmts.foldr Stmt.Block Stmt.undefined, ?_, rfl, Stmt.blockFirsts_foldr stmts,
    Stmt.blockCount_foldr stmts, Stmt.blockEnd_foldr stmts, Stmt.inOrder_foldr stmts hdef⟩
  simp only [Block.makeVector, Result.monad_bind, decide_eq_true hpos, iassert_true,
    Result.bind_ok]
  rw [Block.makeLoop_take stmts hdef stmts.length Stmt.undefined (Nat.le_refl _),
    List.take_length]

/-- Witness for C5: the block over `[Pass, AssignStmt(v, Literal(Int(32), {0})),
Pass]`, whose walk yields `Pass`, `AssignStmt`, `Pass`. -/
theorem block_makeVector_chain_witness :
    Literal.makeVector (Type_.Int 32) Example.zeroVector = Result.ok Example.zeroLiteral ∧
    ∃ b, Block.makeVector
          [Pass.make, AssignStmt.make (Var.mk "v" (Type_.Int 32)) Example.zeroLiteral,
           Pass.make] = Result.ok b ∧
      b = [Pass.make, AssignStmt.make (Var.mk "v" (Type_.Int 32)) Example.zeroLiteral,
           Pass.make].foldr Stmt.Block Stmt.undefined ∧
      b.blockFirsts =
        [Stmt.Pass, Stmt.AssignStmt (Var.mk "v" (Type_.Int 32)) Example.zeroLiteral,
         Stmt.Pass] ∧
      b.blockCount = 3 ∧
      b.blockEnd = Stmt.undefined ∧
      ((∀ s ∈ [Pass.make, AssignStmt.make (Var.mk "v" (Type_.Int 32)) Example.zeroLiteral,
               Pass.make], ∀ first rest, s ≠ Stmt.Block first rest) →
        b.inOrder =
          [Stmt.Pass, Stmt.AssignStmt (Var.mk "v" (Type_.Int 32)) Example.zeroLiteral,
           Stmt.Pass]) :=
  ⟨rfl, block_makeVector_chain
    [Pass.make, AssignStmt.make (Var.mk "v" (Type_.Int 32)) Example.zeroLiteral, Pass.make]
    (by simp)
    (by
      intro s hs
      simp only [List.mem_cons, List.mem_singleton, List.not_mem_nil, or_false] at hs
      rcases hs with h | h | h <;> subst h <;> rfl)⟩

/-- C6: `Block::make(first, rest)` fails exactly when `first` is the undefined
handle, whatever `rest` is, and then on `iassert(first.defined()) << "Empty
block"`; otherwise it returns the node `Block(first, rest)`.  `Block::make` of the
empty sequence fails on `iassert(stmts.size() > 0) << "Empty block"`. -/
theorem block_make_fails_iff :
    (∀ first rest : Stmt,
      ((Block.make first rest).succeeds = false ↔ first = Stmt.undefined)) ∧
    (∀ rest : Stmt, Block.make Stmt.undefined rest
      = Result.fail (Failure.iassert "first.defined()" "Empty block")) ∧
    (∀ first rest : Stmt, first ≠ Stmt.undefined →
      Block.make first rest = Result.ok (Stmt.Block first rest)) ∧
    Block.makeVector [] = Result.fail (Failure.iassert "stmts.size() > 0" "Empty block") := by
  have hdef : ∀ first : Stmt, first ≠ Stmt.undefined → first.defined = true := by
    intro first h
    cases first <;> simp_all [Stmt.defined]
  refine ⟨?_, fun _ => rfl, fun first rest h => Block.make_defined first rest (hdef first h),
    rfl⟩
  intro first rest
  constructor
  · intro h
    by_contra hne
    rw [Block.make_defined first rest (hdef first hne)] at h
    simp [Result.succeeds] at h
  · intro h
    subst h
    rfl

/-- Witness for C6: a block whose `first` is `Pass` and whose `rest` is the
undefined handle is built. -/
theorem block_make_fails_iff_witness :
    Block.make Stmt.Pass Stmt.undefined = Result.ok (Stmt.Block Stmt.Pass Stmt.undefined) :=
  block_make_fails_iff.2.2.1 Stmt.Pass Stmt.undefined (by simp)

/-! ## Literals -/

theorem tdiv_eight (a : Int) :
    Int.tdiv a 8 = if 0 ≤ a then a / 8 else -((-a) / 8) := by
  split
  · exact Int.tdiv_eq_ediv (by assumption) (by decide)
  · have h : 0 ≤ -a := by omega
    have := Int.tdiv_eq_ediv h (show (0 : Int) ≤ 8 by decide)
    rw [Int.neg_tdiv] at this
    omega

theorem wrapInt_eq (x : Int) : wrapInt x = (x + 2147483648) % 4294967296 - 2147483648 := by
  simp only [wrapInt]
  norm_num

theorem wrapInt_of_range (x : Int) (h0 : -2147483648 ≤ x) (h1 : x < 2147483648) :
    wrapInt x = x := by
  rw [wrapInt_eq]
  omega

/-- C8: for a bit width that is not negative and for which `bits + 7` fits a
32-bit `int`, `ScalarType::bytes()` is the least integer `n` with `8 * n >= bits`;
for instance 0, 1, 8, 9 and 64 bits take 0, 1, 1, 2 and 8 bytes. -/
theorem scalarType_bytes_ceil :
    (∀ s : ScalarType, 0 ≤ s.bits → s.bits + 7 < 2147483648 →
      s.bits ≤ 8 * s.bytes ∧ (∀ n : Int, s.bits ≤ 8 * n → s.bytes ≤ n)) ∧
    (∀ k : ScalarType.Kind,
      ScalarType.bytes { kind := k, bits := 0 } = 0 ∧
      ScalarType.bytes { kind := k, bits := 1 } = 1 ∧
      ScalarType.bytes { kind := k, bits := 8 } = 1 ∧
      ScalarType.bytes { kind := k, bits := 9 } = 2 ∧
      ScalarType.bytes { kind := k, bits := 64 } = 8) := by
  constructor
  · intro s h0 h1
    have hb : s.bytes = (s.bits + 7) / 8 := by
      simp only [ScalarType.bytes]
      rw [wrapInt_of_range _ (by omega) h1, tdiv_eight, if_pos (by omega)]
    rw [hb]
    constructor
    · omega
    · intro n hn
      omega
  · intro k
    cases k <;> decide

/-- Witness for C8: a 9-bit scalar takes 2 bytes, the least `n` with
`8 * n >= 9`. -/
theorem scalarType_bytes_ceil_witness :
    (9 : Int) ≤ 8 * ScalarType.bytes { kind := ScalarType.Kind.Int, bits := 9 } ∧
    (∀ n : Int, (9 : Int) ≤ 8 * n →
      ScalarType.bytes { kind := ScalarType.Kind.Int, bits := 9 } ≤ n) :=
  scalarType_bytes_ceil.1 { kind := ScalarType.Kind.Int, bits := 9 } (by decide) (by decide)

/-! ## Type constructors -/

theorem setType_make_ofElement (d : ElementType) :
    SetType.make (Type_.ofElement d) = Result.ok (Type_.ofSet (SetType.mk (Type_.ofElement d))) :=
  rfl

theorem tupleType_make_ofElement (d : ElementType) (size : Nat) :
    TupleType.make (Type_.ofElement d) size
      = Result.ok (Type_.ofTuple (TupleType.mk (Type_.ofElement d) size)) :=
  rfl

theorem setType_make_eq_ok (elementType t : Type_) :
    SetType.make elementType = Result.ok t ↔
      (∃ d, elementType = Type_.ofElement d) ∧ t = Type_.ofSet (SetType.mk elementType) := by
  cases elementType with
  | ofElement d =>
    rw [setType_make_ofElement]
    constructor
    · intro h
      exact ⟨⟨d, rfl⟩, (Result.ok.inj h).symm⟩
    · rintro ⟨_, h⟩
      rw [h]
  | undefined =>
    constructor
    · intro h
      cases h
    · rintro ⟨⟨d, hd⟩, _⟩
      cases hd
  | ofTensor x =>
    constructor
    · intro h
      cases h
    · rintro ⟨⟨d, hd⟩, _⟩
      cases hd
  | ofSet x =>
    constructor
    · intro h
      cases h
    · rintro ⟨⟨d, hd⟩, _⟩
      cases hd
  | ofTuple x =>
    constructor
    · intro h
      cases h
    · rintro ⟨⟨d, hd⟩, _⟩
      cases hd

theorem tupleType_make_eq_ok (elementType : Type_) (size : Nat) (t : Type_) :
    TupleType.make elementType size = Result.ok t ↔
      (∃ d, elementType = Type_.ofElement d) ∧
        t = Type_.ofTuple (TupleType.mk elementType size) := by
  cases elementType with
  | ofElement d =>
    rw [tupleType_make_ofElement]
    constructor
    · intro h
      exact ⟨⟨d, rfl⟩, (Result.ok.inj h).symm⟩
    · rintro ⟨_, h⟩
      rw [h]
  | undefined =>
    constructor
    · intro h
      cases h
    · rintro ⟨⟨d, hd⟩, _⟩
      cases hd
  | ofTensor x =>
    constructor
    · intro h
      cases h
    · rintro ⟨⟨d, hd⟩, _⟩
      cases hd
  | ofSet x =>
    constructor
    · intro h
      cases h
    · rintro ⟨⟨d, hd⟩, _⟩
      cases hd
  | ofTuple x =>
    constructor
    · intro h
      cases h
    · rintro ⟨⟨d, hd⟩, _⟩
      cases hd

/-- Counterexample to C9 as stated: `TupleType::make` accepts the size 0 for an
Element type, so success is not equivalent to "Element type and size > 0", and the
tuple type built has size 0. -/
theorem tupleType_make_zero_counterexample :
    TupleType.make (ElementType.make "e" FieldMap.nil) 0
      = Result.ok (Type_.ofTuple (TupleType.mk (ElementType.make "e" FieldMap.nil) 0)) ∧
    (Type_.ofTuple (TupleType.mk (ElementType.make "e" FieldMap.nil) 0)).toTuple
      = Result.ok (TupleType.mk (ElementType.make "e" FieldMap.nil) 0) ∧
    (TupleType.mk (ElementType.make "e" FieldMap.nil) 0).size = 0 ∧
    ¬ ((∃ t, TupleType.make (ElementType.make "e" FieldMap.nil) 0 = Result.ok t) ↔
        ((∃ d, ElementType.make "e" FieldMap.nil = Type_.ofElement d) ∧ 0 < 0)) := by
  refine ⟨rfl, rfl, rfl, ?_⟩
  intro h
  have := h.mp ⟨_, rfl⟩
  exact absurd this.2 (by decide)

/-- C9, as the code has it: `TupleType::make(elementType, size)` succeeds exactly
when `elementType` is an Element type, for every `size`, and
`SetType::make(elementType)` succeeds exactly when `elementType` is an Element
type; the type built holds the given element type, which is an Element type,
and a tuple type holds the given size. -/
theorem setTuple_make_iff (elementType : Type_) (size : Nat) :
    ((∃ t, TupleType.make elementType size = Result.ok t) ↔
      ∃ d, elementType = Type_.ofElement d) ∧
    ((∃ t, SetType.make elementType = Result.ok t) ↔
      ∃ d, elementType = Type_.ofElement d) ∧
    (∀ t, TupleType.make elementType size = Result.ok t →
      ∃ tuple, t.toTuple = Result.ok tuple ∧ tuple.size = size ∧
        tuple.elementType = elementType ∧ tuple.elementType.isElement = Result.ok true) ∧
    (∀ t, SetType.make elementType = Result.ok t →
      ∃ set, t.toSet = Result.ok set ∧ set.elementType = elementType ∧
        set.elementType.isElement = Result.ok true) := by
  refine ⟨?_, ?_, ?_, ?_⟩
  · constructor
    · rintro ⟨t, ht⟩
      exact ((tupleType_make_eq_ok elementType size t).mp ht).1
    · rintro ⟨d, hd⟩
      exact ⟨_, (tupleType_make_eq_ok elementType size _).mpr ⟨⟨d, hd⟩, rfl⟩⟩
  · constructor
    · rintro ⟨t, ht⟩
      exact ((setType_make_eq_ok elementType t).mp ht).1
    · rintro ⟨d, hd⟩
      exact ⟨_, (setType_make_eq_ok elementType _).mpr ⟨⟨d, hd⟩, rfl⟩⟩
  · intro t ht
    obtain ⟨⟨d, hd⟩, h2⟩ := (tupleType_make_eq_ok elementType size t).mp ht
    subst hd
    subst h2
    exact ⟨_, rfl, rfl, rfl, rfl⟩
  · intro t ht
    obtain ⟨⟨d, hd⟩, h2⟩ := (setType_make_eq_ok elementType t).mp ht
    subst hd
    subst h2
    exact ⟨_, rfl, rfl, rfl⟩

/-- Witness for C9: a tuple of three elements of an Element type. -/
theorem setTuple_make_iff_witness :
    ∃ tuple,
      (Type_.ofTuple (TupleType.mk (ElementType.make "e" FieldMap.nil) 3)).toTuple
        = Result.ok tuple ∧
      tuple.size = 3 ∧ tuple.elementType = ElementType.make "e" FieldMap.nil ∧
      tuple.elementType.isElement = Result.ok true :=
  (setTuple_make_iff (ElementType.make "e" FieldMap.nil) 3).2.2.1
    (Type_.ofTuple (TupleType.mk (ElementType.make "e" FieldMap.nil) 3)) rfl

/-- C10: a `Type` returned by `TensorType::make`, `ElementType::make`,
`SetType::make` or `TupleType::make` is defined, its `kind()` is the variant of
the constructor, exactly the matching one of `isTensor`, `isElement`, `isSet`,
`isTuple` is true, the matching projection returns the descriptor that was built
and the three others fail on their `assert`; for every defined `Type`, a
projection succeeds exactly when its test is true. -/
theorem type_constructors_invariant :
    (∀ (c : ScalarType) (dims : List IndexDomain) (col : Bool),
      (TensorType.make c dims col).defined = true ∧
      (TensorType.make c dims col).kind = Result.ok Kind.Tensor ∧
      (TensorType.make c dims col).isTensor = Result.ok true ∧
      (TensorType.make c dims col).isElement = Result.ok false ∧
      (TensorType.make c dims col).isSet = Result.ok false ∧
      (TensorType.make c dims col).isTuple = Result.ok false ∧
      (TensorType.make c dims col).toTensor
        = Result.ok { componentType := c, dimensions := dims, isColumnVector := col } ∧
      (TensorType.make c dims col).toElement = Result.fail (Failure.assert "isElement()") ∧
      (TensorType.make c dims col).toSet = Result.fail (Failure.assert "isSet()") ∧
      (TensorType.make c dims col).toTuple = Result.fail (Failure.assert "isTuple()")) ∧
    (∀ (name : String) (fields : FieldMap),
      (ElementType.make name fields).defined = true ∧
      (ElementType.make name fields).kind = Result.ok Kind.Element ∧
      (ElementType.make name fields).isTensor = Result.ok false ∧
      (ElementType.make name fields).isElement = Result.ok true ∧
      (ElementType.make name fields).isSet = Result.ok false ∧
      (ElementType.make name fields).isTuple = Result.ok false ∧
      (ElementType.make name fields).toTensor = Result.fail (Failure.assert "isTensor()") ∧
      (ElementType.make name fields).toElement = Result.ok (ElementType.mk name fields) ∧
      (ElementType.make name fields).toSet = Result.fail (Failure.assert "isSet()") ∧
      (ElementType.make name fields).toTuple = Result.fail (Failure.assert "isTuple()")) ∧
    (∀ (elementType t : Type_), SetType.make elementType = Result.ok t →
      t.defined = true ∧
      t.kind = Result.ok Kind.Set ∧
      t.isTensor = Result.ok false ∧
      t.isElement = Result.ok false ∧
      t.isSet = Result.ok true ∧
      t.isTuple = Result.ok false ∧
      t.toTensor = Result.fail (Failure.assert "isTensor()") ∧
      t.toElement = Result.fail (Failure.assert "isElement()") ∧
      t.toSet = Result.ok (SetType.mk elementType) ∧
      t.toTuple = Result.fail (Failure.assert "isTuple()")) ∧
    (∀ (elementType : Type_) (size : Nat) (t : Type_),
      TupleType.make elementType size = Result.ok t →
      t.defined = true ∧
      t.kind = Result.ok Kind.Tuple ∧
      t.isTensor = Result.ok false ∧
      t.isElement = Result.ok false ∧
      t.isSet = Result.ok false ∧
      t.isTuple = Result.ok true ∧
      t.toTensor = Result.fail (Failure.assert "isTensor()") ∧
      t.toElement = Result.fail (Failure.assert "isElement()") ∧
      t.toSet = Result.fail (Failure.assert "isSet()") ∧
      t.toTuple = Result.ok (TupleType.mk elementType size)) ∧
    (∀ t : Type_, t.defined = true →
      (t.toTensor.succeeds = true ↔ t.isTensor = Result.ok true) ∧
      (t.toElement.succeeds = true ↔ t.isElement = Result.ok true) ∧
      (t.toSet.succeeds = true ↔ t.isSet = Result.ok true) ∧
      (t.toTuple.succeeds = true ↔ t.isTuple = Result.ok true)) := by
  refine ⟨?_, ?_, ?_, ?_, ?_⟩
  · intro c dims col
    exact ⟨rfl, rfl, rfl, rfl, rfl, rfl, rfl, rfl, rfl, rfl⟩
  · intro name fields
    exact ⟨rfl, rfl, rfl, rfl, rfl, rfl, rfl, rfl, rfl, rfl⟩
  · intro elementType t ht
    obtain ⟨_, h2⟩ := (setType_make_eq_ok elementType t).mp ht
    subst h2
    exact ⟨rfl, rfl, rfl, rfl, rfl, rfl, rfl, rfl, rfl, rfl⟩
  · intro elementType size t ht
    obtain ⟨_, h2⟩ := (tupleType_make_eq_ok elementType size t).mp ht
    subst h2
    exact ⟨rfl, rfl, rfl, rfl, rfl, rfl, rfl, rfl, rfl, rfl⟩
  · intro t ht
    cases t with
    | undefined => simp [Type_.defined] at ht
    | ofTensor d =>
      simp [Type_.toTensor, Type_.toElement, Type_.toSet, Type_.toTuple, Type_.isTensor,
        Type_.isElement, Type_.isSet, Type_.isTuple, Type_.kind, Result.bind,
        Result.monad_bind, cassert, Result.succeeds]
    | ofElement d =>
      simp [Type_.toTensor, Type_.toElement, Type_.toSet, Type_.toTuple, Type_.isTensor,
        Type_.isElement, Type_.isSet, Type_.isTuple, Type_.kind, Result.bind,
        Result.monad_bind, cassert, Result.succeeds]
    | ofSet d =>
      simp [Type_.toTensor, Type_.toElement, Type_.toSet, Type_.toTuple, Type_.isTensor,
        Type_.isElement, Type_.isSet, Type_.isTuple, Type_.kind, Result.bind,
        Result.monad_bind, cassert, Result.succeeds]
    | ofTuple d =>
      simp [Type_.toTensor, Type_.toElement, Type_.toSet, Type_.toTuple, Type_.isTensor,
        Type_.isElement, Type_.isSet, Type_.isTuple, Type_.kind, Result.bind,
        Result.monad_bind, cassert, Result.succeeds]

/-- Witness for C10: the set type over an Element type. -/
theorem type_constructors_invariant_witness :
    (Type_.ofSet (SetType.mk (ElementType.make "e" FieldMap.nil))).defined = true ∧
    (Type_.ofSet (SetType.mk (ElementType.make "e" FieldMap.nil))).kind
      = Result.ok Kind.Set ∧
    (Type_.ofSet (SetType.mk (ElementType.make "e" FieldMap.nil))).isTensor
      = Result.ok false ∧
    (Type_.ofSet (SetType.mk (ElementType.make "e" FieldMap.nil))).isElement
      = Result.ok false ∧
    (Type_.ofSet (SetType.mk (ElementType.make "e" FieldMap.nil))).isSet = Result.ok true ∧
    (Type_.ofSet (SetType.mk (ElementType.make "e" FieldMap.nil))).isTuple
      = Result.ok false ∧
    (Type_.ofSet (SetType.mk (ElementType.make "e" FieldMap.nil))).toTensor
      = Result.fail (Failure.assert "isTensor()") ∧
    (Type_.ofSet (SetType.mk (ElementType.make "e" FieldMap.nil))).toElement
      = Result.fail (Failure.assert "isElement()") ∧
    (Type_.ofSet (SetType.mk (ElementType.make "e" FieldMap.nil))).toSet
      = Result.ok (SetType.mk (ElementType.make "e" FieldMap.nil)) ∧
    (Type_.ofSet (SetType.mk (ElementType.make "e" FieldMap.nil))).toTuple
      = Result.fail (Failure.assert "isTuple()") :=
  type_constructors_invariant.2.2.1 (ElementType.make "e" FieldMap.nil)
    (Type_.ofSet (SetType.mk (ElementType.make "e" FieldMap.nil))) rfl

/-! ## Functions -/

theorem FuncHeap.func_of_getElem (heap : FuncHeap) (address : Nat) (c : FuncContent)
    (h : heap[address]? = some c) :
    FuncHeap.func heap (some address)
      = Func.mk c.kind c.name c.arguments c.results c.body c.temporaries := by
  simp [FuncHeap.func, h]

theorem FuncHeap.getElem_append_of_getElem (heap : FuncHeap) (x : FuncContent) (address : Nat)
    (c : FuncContent) (h : heap[address]? = some c) : (heap ++ [x])[address]? = some c := by
  have hlt : address < heap.length := by
    by_contra hn
    rw [List.getElem?_eq_none (Nat.le_of_not_lt hn)] at h
    cases h
  rw [List.getElem?_append_left hlt]
  exact h

/-- C11: the prototype-copy `Func(f, bodyB)` of a defined function `f` allocates
a new function whose name, arguments, results and kind are those of `f` and
whose body is `bodyB`; the object `f` points to, and every other function object,
is left as it was, so the name, arguments, results, kind and body of `f` are
unchanged. -/
theorem func_copy_frame (heap : FuncHeap) (address : Nat) (c : FuncContent) (bodyB : Stmt)
    (h : heap[address]? = some c) :
    ∃ heap' g, FuncHeap.constructCopy heap (some address) bodyB = Result.ok (heap', g) ∧
      (FuncHeap.func heap' g).getName = Result.ok c.name ∧
      (FuncHeap.func heap' g).getArguments = Result.ok c.arguments ∧
      (FuncHeap.func heap' g).getResults = Result.ok c.results ∧
      (FuncHeap.func heap' g).getKind = Result.ok c.kind ∧
      (FuncHeap.func heap' g).getBody = Result.ok bodyB ∧
      Func.makeCopy (FuncHeap.func heap (some address)) bodyB
        = Result.ok (FuncHeap.func heap' g) ∧
      g ≠ some address ∧
      FuncHeap.func heap' (some address) = FuncHeap.func heap (some address) ∧
      (FuncHeap.func heap' (some address)).getName = Result.ok c.name ∧
      (FuncHeap.func heap' (some address)).getArguments = Result.ok c.arguments ∧
      (FuncHeap.func heap' (some address)).getResults = Result.ok c.results ∧
      (FuncHeap.func heap' (some address)).getKind = Result.ok c.kind ∧
      (FuncHeap.func heap' (some address)).getBody = Result.ok c.body ∧
      (∀ (a : Nat) (c' : FuncContent), heap[a]? = some c' → heap'[a]? = some c') := by
  have hf := FuncHeap.func_of_getElem heap address c h
  have hlt : address < heap.length := by
    by_contra hn
    rw [List.getElem?_eq_none (Nat.le_of_not_lt hn)] at h
    cases h
  have hnew : FuncHeap.func
      (heap ++ [{ kind := c.kind, name := c.name, arguments := c.arguments,
                  results := c.results, body := bodyB, temporaries := [] }])
      (some heap.length) = Func.mk c.kind c.name c.arguments c.results bodyB [] := by
    simp [FuncHeap.func]
  have hold : FuncHeap.func
      (heap ++ [{ kind := c.kind, name := c.name, arguments := c.arguments,
                  results := c.results, body := bodyB, temporaries := [] }])
      (some address) = Func.mk c.kind c.name c.arguments c.results c.body c.temporaries :=
    FuncHeap.func_of_getElem _ address c (FuncHeap.getElem_append_of_getElem heap _ address c h)
  refine ⟨heap ++ [{ kind := c.kind, name := c.name, arguments := c.arguments,
                     results := c.results, body := bodyB, temporaries := [] }],
    some heap.length, ?_, ?_, ?_, ?_, ?_, ?_, ?_, ?_, ?_, ?_, ?_, ?_, ?_, ?_, ?_⟩
  · simp only [FuncHeap.constructCopy, hf, Result.monad_bind, Func.getName, Func.getArguments,
      Func.getResults, Func.getKind, Result.bind_ok, FuncHeap.construct]
  · rw [hnew]; rfl
  · rw [hnew]; rfl
  · rw [hnew]; rfl
  · rw [hnew]; rfl
  · rw [hnew]; rfl
  · rw [hnew, hf]; rfl
  · intro heq
    have := Option.some.inj heq
    omega
  · rw [hold, hf]
  · rw [hold]; rfl
  · rw [hold]; rfl
  · rw [hold]; rfl
  · rw [hold]; rfl
  · rw [hold]; rfl
  · intro a c' ha
    exact FuncHeap.getElem_append_of_getElem heap _ a c' ha

/-- Witness for C11: with `f = Func("g", [a], [r], bodyA)` the only function
object, `Func(f, bodyB)` is a second object named `g` with body `bodyB`, and `f`
keeps `bodyA`. -/
theorem func_copy_frame_witness :
    ∃ heap' g,
      FuncHeap.constructCopy [Example.contentG] (some 0) Example.bodyB = Result.ok (heap', g) ∧
      (FuncHeap.func heap' g).getName = Result.ok "g" ∧
      (FuncHeap.func heap' g).getArguments = Result.ok [Var.mk "a" (Type_.Float 64)] ∧
      (FuncHeap.func heap' g).getResults = Result.ok [Var.mk "r" (Type_.Float 64)] ∧
      (FuncHeap.func heap' g).getKind = Result.ok Func.Kind.Internal ∧
      (FuncHeap.func heap' g).getBody = Result.ok Example.bodyB ∧
      Func.makeCopy (FuncHeap.func [Example.contentG] (some 0)) Example.bodyB
        = Result.ok (FuncHeap.func heap' g) ∧
      g ≠ some 0 ∧
      FuncHeap.func heap' (some 0) = FuncHeap.func [Example.contentG] (some 0) ∧
      (FuncHeap.func heap' (some 0)).getName = Result.ok "g" ∧
      (FuncHeap.func heap' (some 0)).getArguments = Result.ok [Var.mk "a" (Type_.Float 64)] ∧
      (FuncHeap.func heap' (some 0)).getResults = Result.ok [Var.mk "r" (Type_.Float 64)] ∧
      (FuncHeap.func heap' (some 0)).getKind = Result.ok Func.Kind.Internal ∧
      (FuncHeap.func heap' (some 0)).getBody = Result.ok Stmt.Pass ∧
      (∀ (a : Nat) (c' : FuncContent),
        [Example.contentG][a]? = some c' → heap'[a]? = some c') :=
  func_copy_frame [Example.contentG] 0 Example.contentG Example.bodyB rfl

/-- Counterexample to C12 as stated: the five-argument constructor builds an
Intrinsic function whose body is the defined statement `Pass`, and so does the
prototype-copy of a body-less Intrinsic function. -/
theorem func_intrinsic_body_counterexample :
    (Func.make "f" [] [] Stmt.Pass Func.Kind.Intrinsic).getKind
      = Result.ok Func.Kind.Intrinsic ∧
    (Func.make "f" [] [] Stmt.Pass Func.Kind.Intrinsic).getBody = Result.ok Stmt.Pass ∧
    Stmt.Pass.defined = true ∧
    (∃ sin g, Func.makeBodyless "sin" [] [] Func.Kind.Intrinsic = Result.ok sin ∧
      Func.makeCopy sin Stmt.Pass = Result.ok g ∧
      g.getKind = Result.ok Func.Kind.Intrinsic ∧ g.getBody = Result.ok Stmt.Pass) :=
  ⟨rfl, rfl, rfl, _, _, rfl, rfl, rfl, rfl⟩

/-- C12, as the code has it: the body-less constructor fails exactly when the
given kind is `Internal`, and a function it returns is Intrinsic with an
undefined body; the five-argument constructor stores the body and the kind it
is given, and the prototype-copy stores the given body with the kind of the
function copied, whatever they are. -/
theorem func_constructors_body :
    (∀ (name : String) (arguments results : List Var) (kind : Func.Kind),
      ((Func.makeBodyless name arguments results kind).succeeds = false ↔
        kind = Func.Kind.Internal)) ∧
    (∀ (name : String) (arguments results : List Var),
      Func.makeBodyless name arguments results Func.Kind.Internal
        = Result.fail (Failure.iassert "kind != Internal" "")) ∧
    (∀ (name : String) (arguments results : List Var) (kind : Func.Kind) (f : Func),
      Func.makeBodyless name arguments results kind = Result.ok f →
      f.getKind = Result.ok Func.Kind.Intrinsic ∧ f.getBody = Result.ok Stmt.undefined ∧
      f.getName = Result.ok name ∧ f.getArguments = Result.ok arguments ∧
      f.getResults = Result.ok results) ∧
    (∀ (name : String) (arguments results : List Var) (body : Stmt) (kind : Func.Kind),
      (Func.make name arguments results body kind).getKind = Result.ok kind ∧
      (Func.make name arguments results body kind).getBody = Result.ok body) ∧
    (∀ (func : Func) (body : Stmt) (g : Func), Func.makeCopy func body = Result.ok g →
      g.getBody = Result.ok body ∧ g.getKind = func.getKind) := by
  refine ⟨?_, fun _ _ _ => rfl, ?_, fun _ _ _ _ _ => ⟨rfl, rfl⟩, ?_⟩
  · intro name arguments results kind
    cases kind <;> simp [Func.makeBodyless, Result.monad_bind, Result.bind, iassert,
      Result.succeeds]
  · intro name arguments results kind f h
    cases kind with
    | Internal => cases h
    | Intrinsic =>
      have hf : f = Func.make name arguments results Stmt.undefined Func.Kind.Intrinsic :=
        (Result.ok.inj h).symm
      subst hf
      exact ⟨rfl, rfl, rfl, rfl, rfl⟩
  · intro func body g h
    cases func with
    | undefined => cases h
    | mk kind name arguments results b temporaries =>
      have hg : g = Func.make name arguments results body kind := (Result.ok.inj h).symm
      subst hg
      exact ⟨rfl, rfl⟩

/-- Witness for C12: the body-less Intrinsic function `sin`. -/
theorem func_constructors_body_witness :
    (Func.mk Func.Kind.Intrinsic "sin" [] [] Stmt.undefined []).getKind
      = Result.ok Func.Kind.Intrinsic ∧
    (Func.mk Func.Kind.Intrinsic "sin" [] [] Stmt.undefined []).getBody
      = Result.ok Stmt.undefined ∧
    (Func.mk Func.Kind.Intrinsic "sin" [] [] Stmt.undefined []).getName = Result.ok "sin" ∧
    (Func.mk Func.Kind.Intrinsic "sin" [] [] Stmt.undefined []).getArguments = Result.ok [] ∧
    (Func.mk Func.Kind.Intrinsic "sin" [] [] Stmt.undefined []).getResults = Result.ok [] :=
  func_constructors_body.2.2.1 "sin" [] [] Func.Kind.Intrinsic
    (Func.mk Func.Kind.Intrinsic "sin" [] [] Stmt.undefined []) rfl

/-! ## Calls and maps -/

theorem Type_.isSet_eq_ok_true (t : Type_) :
    t.isSet = Result.ok true ↔ ∃ d, t = Type_.ofSet d := by
  cases t <;> simp [Type_.isSet, Type_.kind, Result.bind]

theorem call_make_eq_ok (func : Func) (actuals : List Expr) (e : Expr) :
    Call.make func actuals = Result.ok e ↔
      ∃ name type, func.getResults = Result.ok [Var.mk name type] ∧
        e = Expr.Call type func actuals := by
  simp only [Call.make, Result.monad_bind, Result.bind_eq_ok, iassert_eq_ok]
  constructor
  · rintro ⟨results, hres, _, hlen, hrest⟩
    have hlen1 : results.length = 1 := by simpa using hlen
    match results, hlen1 with
    | [r], _ =>
      cases r with
      | undefined => cases hrest
      | mk name type =>
        exact ⟨name, type, hres, (Result.ok.inj hrest).symm⟩
  · rintro ⟨name, type, hres, he⟩
    subst he
    exact ⟨[Var.mk name type], hres, (), by simp, rfl⟩

/-- C13: `Call::make(func, actuals)` succeeds exactly when `func` is defined and
has exactly one result variable; the type of the call is then the type of that
result, whatever the actuals are, and the node holds `func` and the actuals.
With a number of results other than one it fails on its `iassert`. -/
theorem call_make_iff (func : Func) (actuals : List Expr) :
    ((∃ e, Call.make func actuals = Result.ok e) ↔
      ∃ name type, func.getResults = Result.ok [Var.mk name type]) ∧
    (∀ e, Call.make func actuals = Result.ok e →
      ∃ name type, func.getResults = Result.ok [Var.mk name type] ∧
        e = Expr.Call type func actuals ∧ e.type = Result.ok type) ∧
    (∀ (actuals' : List Expr) (e e' : Expr), Call.make func actuals = Result.ok e →
      Call.make func actuals' = Result.ok e' → e.type = e'.type) ∧
    (∀ results, func.getResults = Result.ok results → results.length ≠ 1 →
      Call.make func actuals = Result.fail (Failure.iassert "func.getResults().size() == 1"
        "only calls of function with one results is currently supported.")) := by
  refine ⟨?_, ?_, ?_, ?_⟩
  · constructor
    · rintro ⟨e, he⟩
      obtain ⟨name, type, hres, _⟩ := (call_make_eq_ok func actuals e).mp he
      exact ⟨name, type, hres⟩
    · rintro ⟨name, type, hres⟩
      exact ⟨_, (call_make_eq_ok func actuals _).mpr ⟨name, type, hres, rfl⟩⟩
  · intro e he
    obtain ⟨name, type, hres, heq⟩ := (call_make_eq_ok func actuals e).mp he
    exact ⟨name, type, hres, heq, by rw [heq]; rfl⟩
  · intro actuals' e e' he he'
    obtain ⟨name, type, hres, heq⟩ := (call_make_eq_ok func actuals e).mp he
    obtain ⟨name', type', hres', heq'⟩ := (call_make_eq_ok func actuals' e').mp he'
    rw [hres] at hres'
    have hv := Result.ok.inj hres'
    simp only [List.cons.injEq, Var.mk.injEq, and_true] at hv
    rw [heq, heq', hv.2]
    rfl
  · intro results hres hlen
    have hb : (results.length == 1) = false := by simpa using hlen
    simp only [Call.make, Result.monad_bind, hres, Result.bind_ok, hb, iassert_false,
      Result.bind_fail]

/-- Witness for C13: a call of `g`, whose single result `r` has type
`Float(64)`, with no actuals. -/
theorem call_make_iff_witness :
    ∃ name type,
      (Func.mk Func.Kind.Internal "g" [Var.mk "a" (Type_.Float 64)]
        [Var.mk "r" (Type_.Float 64)] Stmt.Pass []).getResults
        = Result.ok [Var.mk name type] ∧
      Expr.Call (Type_.Float 64)
          (Func.mk Func.Kind.Internal "g" [Var.mk "a" (Type_.Float 64)]
            [Var.mk "r" (Type_.Float 64)] Stmt.Pass []) []
        = Expr.Call type
            (Func.mk Func.Kind.Internal "g" [Var.mk "a" (Type_.Float 64)]
              [Var.mk "r" (Type_.Float 64)] Stmt.Pass []) [] ∧
      (Expr.Call (Type_.Float 64)
          (Func.mk Func.Kind.Internal "g" [Var.mk "a" (Type_.Float 64)]
            [Var.mk "r" (Type_.Float 64)] Stmt.Pass []) []).type = Result.ok type :=
  (call_make_iff
    (Func.mk Func.Kind.Internal "g" [Var.mk "a" (Type_.Float 64)]
      [Var.mk "r" (Type_.Float 64)] Stmt.Pass []) []).2.1
    (Expr.Call (Type_.Float 64)
      (Func.mk Func.Kind.Internal "g" [Var.mk "a" (Type_.Float 64)]
        [Var.mk "r" (Type_.Float 64)] Stmt.Pass []) [])
    rfl

theorem expr_defined_eq_false (e : Expr) : e.defined = false ↔ e = Expr.undefined := by
  cases e <;> simp [Expr.defined]

theorem Map.neighbors_check (neighbors : Expr) :
    (if (!neighbors.defined) = true then Result.ok true
      else neighbors.type.bind (fun neighborsType => neighborsType.isSet)) = Result.ok true ↔
      (neighbors = Expr.undefined ∨ ∃ d, neighbors.type = Result.ok (Type_.ofSet d)) := by
  by_cases hd : neighbors.defined = false
  · have hu := (expr_defined_eq_false neighbors).mp hd
    subst hu
    simp [Expr.defined]
  · have hd' : neighbors.defined = true := by simpa using hd
    have hne : neighbors ≠ Expr.undefined := fun h => hd ((expr_defined_eq_false neighbors).mpr h)
    simp only [hd', Bool.not_true, Bool.false_eq_true, if_false, Result.bind_eq_ok,
      Type_.isSet_eq_ok_true, hne, false_or]
    constructor
    · rintro ⟨t, ht, d, hd2⟩
      exact ⟨d, by rw [ht, hd2]⟩
    · rintro ⟨d, hd2⟩
      exact ⟨_, hd2, d, rfl⟩

theorem map_make_eq_ok (vars : List Var) (function : Func) (target neighbors : Expr)
    (reduction : ReductionOperator) (s : Stmt) :
    Map.make vars function target neighbors reduction = Result.ok s ↔
      (∃ d, target.type = Result.ok (Type_.ofSet d)) ∧
      (neighbors = Expr.undefined ∨ ∃ d, neighbors.type = Result.ok (Type_.ofSet d)) ∧
      (∃ results, function.getResults = Result.ok results ∧ vars.length = results.length) ∧
      s = Stmt.Map vars function target neighbors reduction := by
  simp only [Map.make, Result.monad_bind, Result.bind_eq_ok, iassert_eq_ok]
  constructor
  · rintro ⟨tt, htt, b, hb, _, hb2, nb, hnb, _, hnb2, results, hres, _, hlen, hs⟩
    subst hb2
    subst hnb2
    obtain ⟨d, hd⟩ := (Type_.isSet_eq_ok_true tt).mp hb
    subst hd
    exact ⟨⟨d, htt⟩, (Map.neighbors_check neighbors).mp hnb,
      ⟨results, hres, by simpa using hlen⟩, (Result.ok.inj hs).symm⟩
  · rintro ⟨⟨d, htt⟩, hn, ⟨results, hres, hlen⟩, hs⟩
    subst hs
    exact ⟨Type_.ofSet d, htt, true, rfl, (), rfl, true, (Map.neighbors_check neighbors).mpr hn,
      (), rfl, results, hres, (), by simpa using hlen, rfl⟩

/-- C14: `Map::make(vars, f, target, neighbors, reduction)` succeeds exactly when
the type of `target` is a Set type, `neighbors` is the undefined handle or has a
Set type, and `vars.size()` equals the number of results of `f`; the node then
holds exactly the given `vars`, function, `target`, `neighbors` and
`reduction`. -/
theorem map_make_iff (vars : List Var) (function : Func) (target neighbors : Expr)
    (reduction : ReductionOperator) :
    ((∃ s, Map.make vars function target neighbors reduction = Result.ok s) ↔
      (∃ d, target.type = Result.ok (Type_.ofSet d)) ∧
      (neighbors = Expr.undefined ∨ ∃ d, neighbors.type = Result.ok (Type_.ofSet d)) ∧
      (∃ results, function.getResults = Result.ok results ∧
        vars.length = results.length)) ∧
    (∀ s, Map.make vars function target neighbors reduction = Result.ok s →
      s = Stmt.Map vars function target neighbors reduction) := by
  constructor
  · constructor
    · rintro ⟨s, hs⟩
      obtain ⟨h1, h2, h3, _⟩ :=
        (map_make_eq_ok vars function target neighbors reduction s).mp hs
      exact ⟨h1, h2, h3⟩
    · rintro ⟨h1, h2, h3⟩
      exact ⟨_, (map_make_eq_ok vars function target neighbors reduction _).mpr
        ⟨h1, h2, h3, rfl⟩⟩
  · intro s hs
    exact ((map_make_eq_ok vars function target neighbors reduction s).mp hs).2.2.2

/-- Witness for C14: mapping the one-result function `g` over the set `points`
into one variable, with no neighbor set. -/
theorem map_make_iff_witness :
    ∃ s, Map.make [Var.mk "x" (Type_.Float 64)] Example.g Example.points Expr.undefined
          { tag := 0 } = Result.ok s :=
  (map_make_iff [Var.mk "x" (Type_.Float 64)] Example.g Example.points Expr.undefined
    { tag := 0 }).1.mpr
    ⟨⟨_, rfl⟩, Or.inl rfl, ⟨_, rfl, rfl⟩⟩

/-! ## Tensor indices -/

/-- C15: `TensorIndex(name, pe)` has a coordinate array named `prefix + "coords"`
and a sink array named `prefix + "sinks"`, both of the type
`ArrayType::make(ScalarType::Int)`, where the prefix is empty when `name` is empty
and `name + "_"` otherwise; `"K"` gives `"K_coords"` and `"K_sinks"`, and `""` gives
`"coords"` and `"sinks"`.  The name and path expression are stored as given. -/
theorem tensorIndex_names (arrayTypeMake : ScalarType.Kind → Type_) (pe : PathExpression) :
    (∀ name : String,
      (TensorIndex.construct arrayTypeMake name pe).getCoordArray
        = Var.mk ((if name = "" then "" else name ++ "_") ++ "coords")
            (arrayTypeMake ScalarType.Kind.Int) ∧
      (TensorIndex.construct arrayTypeMake name pe).getSinkArray
        = Var.mk ((if name = "" then "" else name ++ "_") ++ "sinks")
            (arrayTypeMake ScalarType.Kind.Int) ∧
      (TensorIndex.construct arrayTypeMake name pe).getName = name ∧
      (TensorIndex.construct arrayTypeMake name pe).getPathExpression = pe) ∧
    (TensorIndex.construct arrayTypeMake "K" pe).getCoordArray
      = Var.mk "K_coords" (arrayTypeMake ScalarType.Kind.Int) ∧
    (TensorIndex.construct arrayTypeMake "K" pe).getSinkArray
      = Var.mk "K_sinks" (arrayTypeMake ScalarType.Kind.Int) ∧
    (TensorIndex.construct arrayTypeMake "" pe).getCoordArray
      = Var.mk "coords" (arrayTypeMake ScalarType.Kind.Int) ∧
    (TensorIndex.construct arrayTypeMake "" pe).getSinkArray
      = Var.mk "sinks" (arrayTypeMake ScalarType.Kind.Int) := by
  refine ⟨?_, ?_, ?_, ?_, ?_⟩
  · intro name
    by_cases h : name = ""
    · subst h
      simp [TensorIndex.construct, TensorIndex.getCoordArray, TensorIndex.getSinkArray,
        TensorIndex.getName, TensorIndex.getPathExpression]
    · simp [TensorIndex.construct, TensorIndex.getCoordArray, TensorIndex.getSinkArray,
        TensorIndex.getName, TensorIndex.getPathExpression, h]
  · simp [TensorIndex.construct, TensorIndex.getCoordArray]
  · simp [TensorIndex.construct, TensorIndex.getSinkArray]
  · simp [TensorIndex.construct, TensorIndex.getCoordArray]
  · simp [TensorIndex.construct, TensorIndex.getSinkArray]

/-! ## Runtime tests and projections -/

theorem scalarTypeEq_iff_eq (l r : ScalarType) : scalarTypeEq l r = true ↔ l = r := by
  cases l
  cases r
  simp [scalarTypeEq]

theorem tensorTypeEq_iff_eq (l r : TensorType) : tensorTypeEq l r = true ↔ l = r := by
  cases l
  cases r
  simp [tensorTypeEq, scalarTypeEq_iff_eq, and_assoc]

mutual
theorem typeEq_iff_eq : ∀ (l r : Type_), typeEq l r = true ↔ l = r
  | Type_.undefined, r => by cases r <;> simp [typeEq]
  | Type_.ofTensor a, r => by cases r <;> simp [typeEq, tensorTypeEq_iff_eq]
  | Type_.ofElement a, r => by cases r <;> simp [typeEq, elementTypeEq_iff_eq a]
  | Type_.ofSet a, r => by cases r <;> simp [typeEq, setTypeEq_iff_eq a]
  | Type_.ofTuple a, r => by cases r <;> simp [typeEq, tupleTypeEq_iff_eq a]
theorem elementTypeEq_iff_eq : ∀ (l r : ElementType), elementTypeEq l r = true ↔ l = r
  | ElementType.mk n f, ElementType.mk n' f' => by
    simp [elementTypeEq, fieldMapEq_iff_eq f]
theorem setTypeEq_iff_eq : ∀ (l r : SetType), setTypeEq l r = true ↔ l = r
  | SetType.mk e, SetType.mk e' => by simp [setTypeEq, typeEq_iff_eq e]
theorem tupleTypeEq_iff_eq : ∀ (l r : TupleType), tupleTypeEq l r = true ↔ l = r
  | TupleType.mk e n, TupleType.mk e' n' => by simp [tupleTypeEq, typeEq_iff_eq e]
theorem fieldMapEq_iff_eq : ∀ (l r : FieldMap), fieldMapEq l r = true ↔ l = r
  | FieldMap.nil, r => by cases r <;> simp [fieldMapEq]
  | FieldMap.cons n t rest, r => by
    cases r <;> simp [fieldMapEq, typeEq_iff_eq t, fieldMapEq_iff_eq rest, and_assoc]
end

/-- C17: structural equality of `Type` values is reflexive, symmetric and
transitive, `!=` is its negation, types built by two calls of a constructor on
identical contents compare equal (two `Float(64)` tensors over the same index
domain among them), and two tensor types that differ only in the column-vector
flag compare unequal. -/
theorem typeEq_equivalence :
    (∀ t : Type_, typeEq t t = true) ∧
    (∀ a b : Type_, typeEq a b = typeEq b a) ∧
    (∀ a b c : Type_, typeEq a b = true → typeEq b c = true → typeEq a c = true) ∧
    (∀ a b : Type_, typeNe a b = !typeEq a b) ∧
    (∀ (c : ScalarType) (dims : List IndexDomain) (col : Bool),
      typeEq (TensorType.make c dims col) (TensorType.make c dims col) = true) ∧
    (∀ (name : String) (fields : FieldMap),
      typeEq (ElementType.make name fields) (ElementType.make name fields) = true) ∧
    (∀ (elementType t1 t2 : Type_), SetType.make elementType = Result.ok t1 →
      SetType.make elementType = Result.ok t2 → typeEq t1 t2 = true) ∧
    (∀ (elementType : Type_) (size : Nat) (t1 t2 : Type_),
      TupleType.make elementType size = Result.ok t1 →
      TupleType.make elementType size = Result.ok t2 → typeEq t1 t2 = true) ∧
    typeEq (TensorType.make { kind := ScalarType.Kind.Float, bits := 64 } [Example.N] false)
      (TensorType.make { kind := ScalarType.Kind.Float, bits := 64 } [Example.N] false)
      = true ∧
    (∀ (c : ScalarType) (dims : List IndexDomain),
      typeEq (TensorType.make c dims true) (TensorType.make c dims false) = false ∧
      typeNe (TensorType.make c dims true) (TensorType.make c dims false) = true) := by
  have refl : ∀ t : Type_, typeEq t t = true := fun t => (typeEq_iff_eq t t).mpr rfl
  have flag : ∀ (c : ScalarType) (dims : List IndexDomain),
      typeEq (TensorType.make c dims true) (TensorType.make c dims false) = false := by
    intro c dims
    cases h : typeEq (TensorType.make c dims true) (TensorType.make c dims false) with
    | false => rfl
    | true =>
      have := (typeEq_iff_eq _ _).mp h
      simp [TensorType.make] at this
  refine ⟨refl, ?_, ?_, fun _ _ => rfl, fun _ _ _ => refl _, fun _ _ => refl _, ?_, ?_,
    refl _, ?_⟩
  · intro a b
    rw [Bool.eq_iff_iff, typeEq_iff_eq, typeEq_iff_eq]
    exact eq_comm
  · intro a b c hab hbc
    rw [typeEq_iff_eq] at hab hbc ⊢
    exact hab.trans hbc
  · intro elementType t1 t2 h1 h2
    rw [h1] at h2
    rw [← Result.ok.inj h2]
    exact refl _
  · intro elementType size t1 t2 h1 h2
    rw [h1] at h2
    rw [← Result.ok.inj h2]
    exact refl _
  · intro c dims
    exact ⟨flag c dims, by simp [typeNe, flag c dims]⟩

/-- Witness for C17: transitivity on three `Float(64)` types. -/
theorem typeEq_equivalence_witness :
    typeEq (Type_.Float 64) (Type_.Float 64) = true :=
  typeEq_equivalence.2.2.1 (Type_.Float 64) (Type_.Float 64) (Type_.Float 64)
    (by decide) (by decide)

/-! ## Tensor reads with different index lists -/

/-- C18: when `TensorRead::make(t, idx1)` and `TensorRead::make(t, idx2)` both
succeed, the two results have the same cached type, namely `getBlockType(t)`,
whatever the lengths of `idx1` and `idx2`. -/
theorem tensorRead_type_independent (getBlockType : Expr → Result Type_) (tensor : Expr)
    (idx1 idx2 : List Expr) (e1 e2 : Expr)
    (h1 : TensorRead.make getBlockType tensor idx1 = Result.ok e1)
    (h2 : TensorRead.make getBlockType tensor idx2 = Result.ok e2) :
    e1.type = e2.type ∧
    ∃ blockType, getBlockType tensor = Result.ok blockType ∧
      e1.type = Result.ok blockType ∧ e2.type = Result.ok blockType := by
  simp only [TensorRead.make, Result.monad_bind, Result.bind_eq_ok] at h1 h2
  obtain ⟨_, _, _, _, _, _, _, _, bt1, hbt1, he1⟩ := h1
  obtain ⟨_, _, _, _, _, _, _, _, bt2, hbt2, he2⟩ := h2
  rw [hbt1] at hbt2
  have hb : bt1 = bt2 := Result.ok.inj hbt2
  subst hb
  rw [← Result.ok.inj he1, ← Result.ok.inj he2]
  exact ⟨rfl, bt1, hbt1, rfl, rfl⟩

/-- Witness for C18: the reads of `M` at `[i]` and at `[i, j]`, with the sample
`getBlockType`. -/
theorem tensorRead_type_independent_witness :
    (Expr.TensorRead (Type_.Float 64) Example.M [Example.i]).type
      = (Expr.TensorRead (Type_.Float 64) Example.M [Example.i, Example.j]).type ∧
    ∃ blockType, Example.getBlockType Example.M = Result.ok blockType ∧
      (Expr.TensorRead (Type_.Float 64) Example.M [Example.i]).type = Result.ok blockType ∧
      (Expr.TensorRead (Type_.Float 64) Example.M [Example.i, Example.j]).type
        = Result.ok blockType :=
  tensorRead_type_independent Example.getBlockType Example.M [Example.i]
    [Example.i, Example.j]
    (Expr.TensorRead (Type_.Float 64) Example.M [Example.i])
    (Expr.TensorRead (Type_.Float 64) Example.M [Example.i, Example.j]) rfl rfl

/-! ## Blocks over sequences with undefined handles -/

theorem stmt_defined_eq_false (s : Stmt) : s.defined = false ↔ s = Stmt.undefined := by
  cases s <;> simp [Stmt.defined]

theorem Block.makeLoop_undefined (stmts : List Stmt) :
    ∀ (i : Nat) (node : Stmt), i ≤ stmts.length →
      (∃ j, j < i ∧ stmts[j]? = some Stmt.undefined) →
      Block.makeLoop stmts i node
        = Result.fail (Failure.iassert "first.defined()" "Empty block") := by
  intro i
  induction i with
  | zero =>
    rintro node _ ⟨j, hj, _⟩
    omega
  | succ i ih =>
    rintro node hi ⟨j, hj, hju⟩
    have hlt : i < stmts.length := hi
    simp only [Block.makeLoop, List.getElem?_eq_getElem hlt]
    by_cases hd : stmts[i].defined = true
    · rw [Block.make_defined _ _ hd, Result.bind_ok]
      apply ih _ (Nat.le_of_lt hlt)
      refine ⟨j, ?_, hju⟩
      have hne : j ≠ i := by
        intro hji
        subst hji
        rw [List.getElem?_eq_getElem hlt] at hju
        rw [Option.some.inj hju] at hd
        simp [Stmt.defined] at hd
      omega
    · have hu : stmts[i] = Stmt.undefined :=
        (stmt_defined_eq_false _).mp (by simpa using hd)
      rw [hu]
      rfl

/-- C19: `Block::make(stmts)` succeeds exactly when `stmts` is not empty and
every handle in it is defined.  The empty sequence fails on
`iassert(stmts.size() > 0) << "Empty block"`, and a non-empty sequence that holds
an undefined handle at any position fails on `iassert(first.defined()) <<
"Empty block"`: the same message in both cases. -/
theorem block_makeVector_iff (stmts : List Stmt) :
    ((∃ b, Block.makeVector stmts = Result.ok b) ↔
      (stmts ≠ [] ∧ ∀ s ∈ stmts, s.defined = true)) ∧
    (stmts = [] →
      Block.makeVector stmts
        = Result.fail (Failure.iassert "stmts.size() > 0" "Empty block")) ∧
    (stmts ≠ [] → Stmt.undefined ∈ stmts →
      Block.makeVector stmts
        = Result.fail (Failure.iassert "first.defined()" "Empty block")) ∧
    ((stmts = [] ∨ Stmt.undefined ∈ stmts) →
      ∃ cond, Block.makeVector stmts = Result.fail (Failure.iassert cond "Empty block")) := by
  have hempty : stmts = [] →
      Block.makeVector stmts
        = Result.fail (Failure.iassert "stmts.size() > 0" "Empty block") := by
    intro h
    subst h
    rfl
  have hundef : stmts ≠ [] → Stmt.undefined ∈ stmts →
      Block.makeVector stmts
        = Result.fail (Failure.iassert "first.defined()" "Empty block") := by
    intro hne hmem
    have hpos : 0 < stmts.length := List.length_pos.mpr hne
    obtain ⟨j, hj, hju⟩ := List.getElem_of_mem hmem
    simp only [Block.makeVector, Result.monad_bind, decide_eq_true hpos, iassert_true,
      Result.bind_ok]
    exact Block.makeLoop_undefined stmts stmts.length Stmt.undefined (Nat.le_refl _)
      ⟨j, hj, by rw [List.getElem?_eq_getElem hj, hju]⟩
  refine ⟨?_, hempty, hundef, ?_⟩
  · constructor
    · rintro ⟨b, hb⟩
      have hne : stmts ≠ [] := by
        intro h
        rw [hempty h] at hb
        cases hb
      refine ⟨hne, ?_⟩
      intro s hs
      by_contra hd
      have hu : s = Stmt.undefined := (stmt_defined_eq_false s).mp (by simpa using hd)
      subst hu
      rw [hundef hne hs] at hb
      cases hb
    · rintro ⟨hne, hdef⟩
      have hpos : 0 < stmts.length := List.length_pos.mpr hne
      refine ⟨(stmts.take stmts.length).foldr Stmt.Block Stmt.undefined, ?_⟩
      simp only [Block.makeVector, Result.monad_bind, decide_eq_true hpos, iassert_true,
        Result.bind_ok]
      exact Block.makeLoop_take stmts hdef stmts.length Stmt.undefined (Nat.le_refl _)
  · rintro (h | h)
    · exact ⟨_, hempty h⟩
    · by_cases hne : stmts = []
      · exact ⟨_, hempty hne⟩
      · exact ⟨_, hundef hne h⟩

/-- Witness for C19: the sequence `[Pass, undefined, Pass]` is rejected with the
message of the empty sequence. -/
theorem block_makeVector_iff_witness :
    Block.makeVector [Stmt.Pass, Stmt.undefined, Stmt.Pass]
      = Result.fail (Failure.iassert "first.defined()" "Empty block") :=
  (block_makeVector_iff [Stmt.Pass, Stmt.undefined, Stmt.Pass]).2.2.1 (by simp) (by simp)

/-! ## Literals from vectors of doubles -/

/-- C20 at its failing inputs: `Literal::make(Float(128), values)` with one double
in `values` passes the precondition and copies 16 bytes, the last 8 of them from
behind the 8 bytes the vector holds; `Literal::make(Float(64), values)` with an
empty `values` whose `data()` is not null passes the precondition and copies 8
bytes from a vector that holds none. -/
theorem literal_makeVector_overread :
    (∀ p : Nat → Byte,
      Literal.makeVector (Type_.Float 128) { size := 1, data := some p }
        = Result.ok (Expr.Literal (Type_.Float 128)
            [p 0, p 1, p 2, p 3, p 4, p 5, p 6, p 7,
             p 8, p 9, p 10, p 11, p 12, p 13, p 14, p 15] 16)) ∧
    ¬ (16 ≤ 8 * 1) ∧
    (∀ p : Nat → Byte,
      Literal.makeVector (Type_.Float 64) { size := 0, data := some p }
        = Result.ok (Expr.Literal (Type_.Float 64)
            [p 0, p 1, p 2, p 3, p 4, p 5, p 6, p 7] 8)) ∧
    ¬ (8 ≤ 8 * 0) :=
  ⟨fun _ => rfl, by decide, fun _ => rfl, by decide⟩

/-! ## Loads -/

theorem load_make_eq_ok (buffer index : Expr) (ti : Type_)
    (hi : index.type = Result.ok ti) (hs : isScalar ti = Result.ok true) (e : Expr) :
    Load.make buffer index = Result.ok e ↔
      ∃ d, buffer.type = Result.ok (Type_.ofTensor d) ∧
        e = Expr.Load (Type_.ofTensor { componentType := d.componentType, dimensions := [],
                                        isColumnVector := false }) buffer index := by
  simp only [Load.make, Result.monad_bind, hi, hs, Result.bind_ok, iassert_true,
    Result.bind_eq_ok, Type_.toTensor_eq_ok]
  constructor
  · rintro ⟨t, ht, d, hd, he⟩
    subst hd
    exact ⟨d, ht, (Result.ok.inj he).symm⟩
  · rintro ⟨d, ht, he⟩
    subst he
    exact ⟨Type_.ofTensor d, ht, d, rfl, rfl⟩

theorem load_make_not_tensor (buffer index : Expr) (ti t : Type_)
    (hi : index.type = Result.ok ti) (hs : isScalar ti = Result.ok true)
    (ht : buffer.type = Result.ok t) (hd : t.defined = true)
    (hn : ¬ ∃ d, t = Type_.ofTensor d) :
    Load.make buffer index = Result.fail (Failure.assert "isTensor()") := by
  simp only [Load.make, Result.monad_bind, hi, hs, ht, Result.bind_ok, iassert_true]
  cases t with
  | undefined => simp [Type_.defined] at hd
  | ofTensor d => exact absurd ⟨d, rfl⟩ hn
  | ofElement d => rfl
  | ofSet d => rfl
  | ofTuple d => rfl

/-- C21: with an index expression of scalar type, `Load::make(buffer, index)`
succeeds exactly when the type of `buffer` is a Tensor type; the result type is
then the order-0 tensor of the component type of `buffer`, and the node holds
`buffer` and `index`.  A buffer whose type is an Element, Set or Tuple type is
rejected by the `assert(isTensor())` of the projection `toTensor`. -/
theorem load_make_iff (buffer index : Expr) (ti : Type_)
    (hi : index.type = Result.ok ti) (hs : isScalar ti = Result.ok true) :
    ((∃ e, Load.make buffer index = Result.ok e) ↔
      ∃ d, buffer.type = Result.ok (Type_.ofTensor d)) ∧
    (∀ e, Load.make buffer index = Result.ok e →
      ∃ d, buffer.type = Result.ok (Type_.ofTensor d) ∧
        e = Expr.Load (Type_.ofTensor { componentType := d.componentType, dimensions := [],
                                        isColumnVector := false }) buffer index ∧
        e.type = Result.ok (Type_.ofTensor { componentType := d.componentType,
                                             dimensions := [], isColumnVector := false }) ∧
        isScalar (Type_.ofTensor { componentType := d.componentType, dimensions := [],
                                   isColumnVector := false }) = Result.ok true) ∧
    (∀ d : ElementType, buffer.type = Result.ok (Type_.ofElement d) →
      Load.make buffer index = Result.fail (Failure.assert "isTensor()")) ∧
    (∀ d : SetType, buffer.type = Result.ok (Type_.ofSet d) →
      Load.make buffer index = Result.fail (Failure.assert "isTensor()")) ∧
    (∀ d : TupleType, buffer.type = Result.ok (Type_.ofTuple d) →
      Load.make buffer index = Result.fail (Failure.assert "isTensor()")) := by
  refine ⟨?_, ?_, ?_, ?_, ?_⟩
  · constructor
    · rintro ⟨e, he⟩
      obtain ⟨d, hd, _⟩ := (load_make_eq_ok buffer index ti hi hs e).mp he
      exact ⟨d, hd⟩
    · rintro ⟨d, hd⟩
      exact ⟨_, (load_make_eq_ok buffer index ti hi hs _).mpr ⟨d, hd, rfl⟩⟩
  · intro e he
    obtain ⟨d, hd, heq⟩ := (load_make_eq_ok buffer index ti hi hs e).mp he
    exact ⟨d, hd, heq, by rw [heq]; rfl, rfl⟩
  · intro d hd
    exact load_make_not_tensor buffer index ti _ hi hs hd rfl (by simp)
  · intro d hd
    exact load_make_not_tensor buffer index ti _ hi hs hd rfl (by simp)
  · intro d hd
    exact load_make_not_tensor buffer index ti _ hi hs hd rfl (by simp)

/-- Witness for C21: loading from `M : Float(64)[N,N]` at the integer index `i`
gives a `Float(64)` scalar, and loading from the set `points` is rejected. -/
theorem load_make_iff_witness :
    (∃ d, Example.M.type = Result.ok (Type_.ofTensor d) ∧
      Expr.Load (Type_.Float 64) Example.M Example.i
        = Expr.Load (Type_.ofTensor { componentType := d.componentType, dimensions := [],
                                      isColumnVector := false }) Example.M Example.i ∧
      (Expr.Load (Type_.Float 64) Example.M Example.i).type
        = Result.ok (Type_.ofTensor { componentType := d.componentType, dimensions := [],
                                      isColumnVector := false }) ∧
      isScalar (Type_.ofTensor { componentType := d.componentType, dimensions := [],
                                 isColumnVector := false }) = Result.ok true) ∧
    Load.make Example.points Example.i = Result.fail (Failure.assert "isTensor()") :=
  ⟨(load_make_iff Example.M Example.i (Type_.Int 32) rfl rfl).2.1
      (Expr.Load (Type_.Float 64) Example.M Example.i) rfl,
   (load_make_iff Example.points Example.i (Type_.Int 32) rfl rfl).2.2.2.1
      (SetType.mk Example.pointType) rfl⟩

end Simit
